import Mathlib

/-!
Verification development for the CTF Sentinel bot (`src/CTF.py`).

The Python program is shallowly embedded: every definition below mirrors a
function of the source file (doc comments name the Python symbol).  Discord
and the network are external collaborators; they are modelled as explicit
environment data (which guilds and channels resolve, what the feed returned).
Two helpers of the repository are called by the source but their definitions
are not part of `src/` (`should_send_notification`, `is_ctf_joined`); they
are modelled from the spec and marked as such.
-/

namespace CTFSentinel

/-! ## Decimal strings: Python `str(gid)` and `int(gid)` on non-negative ints -/

/-- Decimal digits, most significant first, by structural recursion on a
fuel bound (any `fuel > n` gives the digits of `n`). -/
def decDigitsF : Nat → Nat → List Nat
  | 0, _ => []
  | fuel + 1, n => if n < 10 then [n] else decDigitsF fuel (n / 10) ++ [n % 10]

/-- Decimal digits of a natural number, most significant first.
Models the digit sequence of Python `str(n)` for `n ≥ 0`. -/
def decDigits (n : Nat) : List Nat := decDigitsF (n + 1) n

/-- Numeric value of a big-endian digit list (how Python `int(s)` reads a
decimal string of digits). -/
def decValList (ds : List Nat) : Nat := ds.foldl (fun a d => a * 10 + d) 0

/-- Python `str(n)` for a non-negative int `n`. -/
def pyStr (n : Nat) : String := String.mk ((decDigits n).map (fun d => Char.ofNat (48 + d)))

/-- Python `int(s)` for a decimal digit string (as produced by `pyStr`). -/
def pyIntNat (s : String) : Nat := decValList (s.data.map (fun c => c.toNat - 48))

/-! ## Timestamp parsing: `parse_ctf_time_to_timestamp` (src/CTF.py:190-208)

`datetime.strptime` is embedded at the level CPython implements it: each
format compiles to a regex; the leftmost-greedy match is taken (field
alternatives in the regex's priority order, with backtracking), then the
whole string must have been consumed, then the `datetime` constructor
validates the fields (raising `ValueError`, which the source catches).
Parsers work on `List Char` (`str` code points) and return the candidate
matches in regex priority order. -/

/-- Is `c` an ASCII digit. -/
def isDig (c : Char) : Bool := 48 ≤ c.toNat && c.toNat ≤ 57

/-- Value of an ASCII digit. -/
def dval (c : Char) : Nat := c.toNat - 48

/-- `%Y`: regex `\d\d\d\d`. -/
def pY : List Char → List (Nat × List Char)
  | a :: b :: c :: d :: r =>
    if isDig a ∧ isDig b ∧ isDig c ∧ isDig d then
      [(dval a * 1000 + dval b * 100 + dval c * 10 + dval d, r)]
    else []
  | _ => []

/-- `%m`: regex `(1[0-2]|0[1-9]|[1-9])`, alternatives in priority order. -/
def pm (cs : List Char) : List (Nat × List Char) :=
  (match cs with
   | a :: b :: r =>
     (if a.toNat = 49 ∧ isDig b ∧ dval b ≤ 2 then [(10 + dval b, r)] else []) ++
     (if a.toNat = 48 ∧ isDig b ∧ 1 ≤ dval b then [(dval b, r)] else [])
   | _ => []) ++
  (match cs with
   | a :: r => if isDig a ∧ 1 ≤ dval a then [(dval a, r)] else []
   | _ => [])

/-- `%d`: regex `(3[01]|[12]\d|0[1-9]|[1-9])`. -/
def pd (cs : List Char) : List (Nat × List Char) :=
  (match cs with
   | a :: b :: r =>
     (if a.toNat = 51 ∧ isDig b ∧ dval b ≤ 1 then [(30 + dval b, r)] else []) ++
     (if (a.toNat = 49 ∨ a.toNat = 50) ∧ isDig b then [(dval a * 10 + dval b, r)] else []) ++
     (if a.toNat = 48 ∧ isDig b ∧ 1 ≤ dval b then [(dval b, r)] else [])
   | _ => []) ++
  (match cs with
   | a :: r => if isDig a ∧ 1 ≤ dval a then [(dval a, r)] else []
   | _ => [])

/-- `%H`: regex `(2[0-3]|[0-1]\d|\d)`. -/
def pH (cs : List Char) : List (Nat × List Char) :=
  (match cs with
   | a :: b :: r =>
     (if a.toNat = 50 ∧ isDig b ∧ dval b ≤ 3 then [(20 + dval b, r)] else []) ++
     (if (a.toNat = 48 ∨ a.toNat = 49) ∧ isDig b then [(dval a * 10 + dval b, r)] else [])
   | _ => []) ++
  (match cs with
   | a :: r => if isDig a then [(dval a, r)] else []
   | _ => [])

/-- `%M`: regex `([0-5]\d|\d)`. -/
def pMin (cs : List Char) : List (Nat × List Char) :=
  (match cs with
   | a :: b :: r => if isDig a ∧ dval a ≤ 5 ∧ isDig b then [(dval a * 10 + dval b, r)] else []
   | _ => []) ++
  (match cs with
   | a :: r => if isDig a then [(dval a, r)] else []
   | _ => [])

/-- `%S`: regex `(6[0-1]|[0-5]\d|\d)` (60/61 match but the `datetime`
constructor later rejects them). -/
def pS (cs : List Char) : List (Nat × List Char) :=
  (match cs with
   | a :: b :: r =>
     (if a.toNat = 54 ∧ isDig b ∧ dval b ≤ 1 then [(60 + dval b, r)] else []) ++
     (if isDig a ∧ dval a ≤ 5 ∧ isDig b then [(dval a * 10 + dval b, r)] else [])
   | _ => []) ++
  (match cs with
   | a :: r => if isDig a then [(dval a, r)] else []
   | _ => [])

/-- Greedy digit-run candidates for `\d{1,fuel}`: longest first, like the
regex engine backtracks. -/
def pfCands : Nat → List Char → List (List Nat × List Char)
  | 0, _ => []
  | _ + 1, [] => []
  | fuel + 1, c :: r =>
    if isDig c then (pfCands fuel r).map (fun p => (dval c :: p.1, p.2)) ++ [([dval c], r)]
    else []

/-- Microseconds from a `%f` digit group: CPython pads to six digits. -/
def microOf (ds : List Nat) : Nat := decValList ds * 10 ^ (6 - ds.length)

/-- A literal character of the format string. -/
def lit (ch : Char) (cs : List Char) : List (Unit × List Char) :=
  match cs with
  | c :: r => if c = ch then [((), r)] else []
  | [] => []

/-- Optional `:?` (greedy: the consuming candidate first). -/
def pOptColon (cs : List Char) : List (Unit × List Char) :=
  match cs with
  | c :: r => if c = ':' then [((), r), ((), cs)] else [((), cs)]
  | [] => [((), cs)]

/-- `[0-5]\d` (two digits exactly), used for the minute/second fields of `%z`. -/
def pMM : List Char → List (Nat × List Char)
  | a :: b :: r => if isDig a ∧ dval a ≤ 5 ∧ isDig b then [(dval a * 10 + dval b, r)] else []
  | _ => []

/-- Optional fraction `(\.\d{1,6})?` inside `%z`; value is the fraction in
microseconds (CPython pads the digit group to six digits). Present (greedy)
candidates first. -/
def pFrac (cs : List Char) : List (Nat × List Char) :=
  (match cs with
   | c :: r => if c = '.' then (pfCands 6 r).map (fun p => (microOf p.1, p.2)) else []
   | [] => []) ++ [(0, cs)]

/-- Optional seconds group `(:?[0-5]\d(\.\d{1,6})?)?` of `%z`; value is
(seconds, fraction microseconds). Present candidates first. -/
def pZSec (cs : List Char) : List ((Nat × Nat) × List Char) :=
  ((pOptColon cs).flatMap (fun p1 =>
    (pMM p1.2).flatMap (fun p2 =>
      (pFrac p2.2).map (fun p3 => ((p2.1, p3.1), p3.2))))) ++ [((0, 0), cs)]

/-- `%z`: regex `([+-]\d\d:?[0-5]\d(:?[0-5]\d(\.\d{1,6})?)?|Z)`; value is the
signed UTC offset in microseconds (CPython negates both the seconds and the
fraction for a leading minus). -/
def pz (cs : List Char) : List (Int × List Char) :=
  (match cs with
   | sgn :: c1 :: c2 :: r =>
     if (sgn = '+' ∨ sgn = '-') ∧ isDig c1 ∧ isDig c2 then
       (pOptColon r).flatMap (fun p1 =>
         (pMM p1.2).flatMap (fun p2 =>
           (pZSec p2.2).map (fun p3 =>
             let total : Int :=
               (((dval c1 * 10 + dval c2) * 3600 + p2.1 * 60 + p3.1.1) * 1000000 + p3.1.2 : Nat)
             ((if sgn = '-' then -total else total), p3.2))))
     else []
   | _ => []) ++
  (match cs with
   | c :: r => if c = 'Z' then [((0 : Int), r)] else []
   | _ => [])

/-- The fields `datetime.strptime` hands to the `datetime` constructor.
`tzOff` is the UTC offset in microseconds (`none` for a naive result). -/
structure DT where
  year : Nat
  month : Nat
  day : Nat
  hour : Nat
  minute : Nat
  second : Nat
  micro : Nat
  tzOff : Option Int
  deriving DecidableEq

/-- Candidates of the shared date-time core `%Y-%m-%dT%H:%M:%S`. -/
def dtCands (cs : List Char) : List ((Nat × Nat × Nat × Nat × Nat × Nat) × List Char) :=
  (pY cs).flatMap fun q1 =>
  (lit '-' q1.2).flatMap fun q2 =>
  (pm q2.2).flatMap fun q3 =>
  (lit '-' q3.2).flatMap fun q4 =>
  (pd q4.2).flatMap fun q5 =>
  (lit 'T' q5.2).flatMap fun q6 =>
  (pH q6.2).flatMap fun q7 =>
  (lit ':' q7.2).flatMap fun q8 =>
  (pMin q8.2).flatMap fun q9 =>
  (lit ':' q9.2).flatMap fun q10 =>
  (pS q10.2).map fun q11 => ((q1.1, q3.1, q5.1, q7.1, q9.1, q11.1), q11.2)

/-- Leap years (Gregorian). -/
def isLeap (y : Nat) : Bool := (y % 4 = 0 && y % 100 ≠ 0) || y % 400 = 0

/-- Length of a month. -/
def daysInMonth (y m : Nat) : Nat :=
  if m = 2 then (if isLeap y then 29 else 28)
  else if m = 4 ∨ m = 6 ∨ m = 9 ∨ m = 11 then 30
  else 31

/-- The `datetime` constructor's validation of what the format regexes let
through: `MINYEAR ≤ year`, day fits the month, `second ≤ 59`. -/
def dtValid (d : DT) : Bool :=
  1 ≤ d.year && d.day ≤ daysInMonth d.year d.month && d.second ≤ 59

/-- Pack matched core fields into a `DT`. -/
def mkDT (t : Nat × Nat × Nat × Nat × Nat × Nat) (micro : Nat) (tz : Option Int) : DT :=
  { year := t.1, month := t.2.1, day := t.2.2.1, hour := t.2.2.2.1,
    minute := t.2.2.2.2.1, second := t.2.2.2.2.2, micro := micro, tzOff := tz }

/-- `datetime.strptime(s, "%Y-%m-%dT%H:%M:%S")` as an `Option`
(`ValueError` ↦ `none`). -/
def strptimeYmdHMS (cs : List Char) : Option DT :=
  match (dtCands cs).head? with
  | none => none
  | some (t, rest) =>
    let d := mkDT t 0 none
    if rest.isEmpty ∧ dtValid d then some d else none

/-- `datetime.strptime(s, "%Y-%m-%dT%H:%M:%S%z")`. -/
def strptimeYmdHMSz (cs : List Char) : Option DT :=
  match ((dtCands cs).flatMap (fun q => (pz q.2).map (fun p => ((q.1, p.1), p.2)))).head? with
  | none => none
  | some ((t, z), rest) =>
    let d := mkDT t 0 (some z)
    if rest.isEmpty ∧ dtValid d ∧ z.natAbs < 86400000000 then some d else none

/-- `datetime.strptime(s, "%Y-%m-%dT%H:%M:%S.%f%z")`. -/
def strptimeYmdHMSfz (cs : List Char) : Option DT :=
  match ((dtCands cs).flatMap (fun q =>
      (lit '.' q.2).flatMap (fun q2 =>
        (pfCands 6 q2.2).flatMap (fun q3 =>
          (pz q3.2).map (fun p => ((q.1, microOf q3.1, p.1), p.2)))))).head? with
  | none => none
  | some ((t, mic, z), rest) =>
    let d := mkDT t mic (some z)
    if rest.isEmpty ∧ dtValid d ∧ z.natAbs < 86400000000 then some d else none

/-- `datetime.strptime(s, "%Y-%m-%dT%H:%M:%S.%f")`. -/
def strptimeYmdHMSf (cs : List Char) : Option DT :=
  match ((dtCands cs).flatMap (fun q =>
      (lit '.' q.2).flatMap (fun q2 =>
        (pfCands 6 q2.2).map (fun q3 => ((q.1, microOf q3.1), q3.2))))).head? with
  | none => none
  | some ((t, mic), rest) =>
    let d := mkDT t mic none
    if rest.isEmpty ∧ dtValid d then some d else none

/-- Days between a Gregorian civil date (year ≥ 1) and 1970-01-01
(Howard Hinnant's `days_from_civil`, specialised to non-negative years). -/
def daysFromCivil (y m d : Nat) : Int :=
  let y2 := if m ≤ 2 then y - 1 else y
  let era := y2 / 400
  let yoe := y2 % 400
  let mp := if 2 < m then m - 3 else m + 9
  let doy := (153 * mp + 2) / 5 + (d - 1)
  let doe := yoe * 365 + yoe / 4 - yoe / 100 + doy
  ((era * 146097 + doe : Nat) : Int) - 719468

/-- `int(dt.timestamp())` after the source's
`if dt.tzinfo is None: dt = dt.replace(tzinfo=timezone.utc)`: a naive result
is interpreted at UTC offset 0; `int()` truncates the fractional seconds
toward zero.  Computed exactly here, in microseconds; the IEEE-754 rounding
that `datetime.timestamp()` applies to sub-second values at very large
magnitudes (years ≳ 5000) is not modelled. -/
def tsOfDT (d : DT) : Int :=
  let offMicro : Int := d.tzOff.getD 0
  let valueMicro : Int :=
    (daysFromCivil d.year d.month d.day * 86400 +
      ((d.hour * 3600 + d.minute * 60 + d.second : Nat) : Int)) * 1000000 +
      (d.micro : Int) - offMicro
  Int.tdiv valueMicro 1000000

/-- Epoch seconds of date-time fields read at UTC offset zero — what a
timestamp without timezone information must mean if naive datetimes are
interpreted as UTC. -/
def utcSecondsOf (d : DT) : Int :=
  daysFromCivil d.year d.month d.day * 86400 +
    ((d.hour * 3600 + d.minute * 60 + d.second : Nat) : Int)

/-- `parse_ctf_time_to_timestamp` (src/CTF.py:190-208): empty-string guard,
the four formats in order, then the 19-character-prefix fallback which always
re-interprets the naive result as UTC. -/
def parse_ctf_time_to_timestamp (s : String) : Option Int :=
  if s = "" then none else
  match strptimeYmdHMSz s.data with
  | some d => some (tsOfDT d)
  | none =>
  match strptimeYmdHMSfz s.data with
  | some d => some (tsOfDT d)
  | none =>
  match strptimeYmdHMS s.data with
  | some d => some (tsOfDT d)
  | none =>
  match strptimeYmdHMSf s.data with
  | some d => some (tsOfDT d)
  | none =>
  match strptimeYmdHMS (s.data.take 19) with
  | some d => some (tsOfDT d)
  | none => none

/-! ## Data model: the four stores of `CTFDataManager` (src/CTF.py:51-57) -/

/-- The four notification kinds tracked per guild
(`'24h'`, `'1h'`, `'channel_1h'`, `'archived'`, src/CTF.py:275-280). -/
inductive NotifKind
  | n24
  | n1
  | channel_1h
  | archived
  deriving DecidableEq

/-- One guild's record in `sent_notifications`: a set of event ids per kind. -/
structure NotifEntry where
  n24 : Finset String
  n1 : Finset String
  channel_1h : Finset String
  archived : Finset String
  deriving DecidableEq

/-- `guild_notifications[kind]`. -/
def NotifEntry.get (e : NotifEntry) : NotifKind → Finset String
  | .n24 => e.n24
  | .n1 => e.n1
  | .channel_1h => e.channel_1h
  | .archived => e.archived

/-- Replace one kind's set. -/
def NotifEntry.put (e : NotifEntry) : NotifKind → Finset String → NotifEntry
  | .n24, v => { e with n24 := v }
  | .n1, v => { e with n1 := v }
  | .channel_1h, v => { e with channel_1h := v }
  | .archived, v => { e with archived := v }

/-- The freshly initialised record of `get_guild_notifications`. -/
def emptyNotifEntry : NotifEntry := ⟨∅, ∅, ∅, ∅⟩

/-- A key of the `sent_notifications` dict.  The runtime accessors use int
guild ids, but `slash_reset_notifications` (src/CTF.py:664) assigns under
`str(gid)`; in a Python dict `1` and `"1"` are distinct keys. -/
inductive GKey
  | ik (n : Nat)
  | sk (t : String)
  deriving DecidableEq

/-- The `settings` dict of a guild config; defaults are `DEFAULT_CONFIG`
(src/CTF.py:27-35).  The config accessors create the dict with every key
present, and `get_guild_setting` falls back to the same defaults, so a typed
structure with defaults is an exact model. -/
structure GuildSettings where
  api_check_interval : Nat := 15
  notification_check_interval : Nat := 15
  notification_24h : Bool := true
  notification_1h : Bool := true
  auto_archive : Bool := true
  archive_delay : Nat := 60
  admin_roles : List Nat := []
  deriving DecidableEq

/-- `DEFAULT_CTF_CREDENTIALS` (src/CTF.py:37-41). -/
structure CtfCredentials where
  user : String := "Not-Set"
  pw : String := "random"
  email : String := "Not-Set@gmail.com"
  deriving DecidableEq

/-- One guild's config (`get_guild_config` default shape, src/CTF.py:293-303). -/
structure GuildConfig where
  setup_complete : Bool := false
  channel_id : Option Nat := none
  settings : GuildSettings := {}
  ctf_channels : List (String × Nat) := []
  ctf_credentials : CtfCredentials := {}
  deriving DecidableEq

/-- An event as cached from the CTFTime JSON (fields the source reads via
`.get`, hence all optional). -/
structure CTFEvent where
  id : Option Nat := none
  title : Option String := none
  start : Option String := none
  finish : Option String := none
  description : Option String := none
  url : Option String := none
  deriving DecidableEq

/-- A participation status once set (untouched pairs are simply absent). -/
inductive PStat
  | joined
  | skipped
  deriving DecidableEq

/-- First-match lookup in a Python-dict-like association list. -/
def alGet {α β : Type} [DecidableEq α] : List (α × β) → α → Option β
  | [], _ => none
  | (k, v) :: t, a => if k = a then some v else alGet t a

/-- `d[k] = v` on a Python dict: overwrite the first binding in place, or
append a new binding at the end. -/
def alPut {α β : Type} [DecidableEq α] : List (α × β) → α → β → List (α × β)
  | [], a, b => [(a, b)]
  | (k, v) :: t, a, b => if k = a then (a, b) :: t else (k, v) :: alPut t a b

/-- The four in-memory stores of `CTFDataManager`, as insertion-ordered
association lists (Python dicts). -/
structure BotState where
  ctf_cache : List (String × CTFEvent) := []
  guild_configs : List (Nat × GuildConfig) := []
  sent_notifications : List (GKey × NotifEntry) := []
  guild_ctf_status : List (Nat × List (String × PStat)) := []
  deriving DecidableEq

/-- The Discord collaborator: which guild ids (`bot.get_guild`) and channel
ids (`bot.get_channel`) resolve to live objects during the pass. -/
structure Env where
  liveGuilds : List Nat := []
  liveChannels : List Nat := []

/-! ## Accessors (src/CTF.py:254-352).  Each returns its value together with
the possibly-extended state, because the Python getters lazily insert
defaults into the live dicts. -/

/-- `get_guild_config` (src/CTF.py:293-303). -/
def get_guild_config (gid : Nat) (s : BotState) : GuildConfig × BotState :=
  match alGet s.guild_configs gid with
  | some c => (c, s)
  | none =>
    ({}, { s with guild_configs := alPut s.guild_configs gid {} })

/-- `is_guild_setup_complete` (src/CTF.py:305-307). -/
def is_guild_setup_complete (gid : Nat) (s : BotState) : Bool × BotState :=
  let p := get_guild_config gid s
  (p.1.setup_complete, p.2)

/-- `get_guild_channel_id` (src/CTF.py:309-313). -/
def get_guild_channel_id (gid : Nat) (s : BotState) : Option Nat × BotState :=
  let p := is_guild_setup_complete gid s
  if p.1 then
    let q := get_guild_config gid p.2
    (q.1.channel_id, q.2)
  else (none, p.2)

/-- `get_guild_setting(gid, "notification_24h")` (src/CTF.py:322-325). -/
def get_guild_setting_n24 (gid : Nat) (s : BotState) : Bool × BotState :=
  let p := get_guild_config gid s
  (p.1.settings.notification_24h, p.2)

/-- `get_guild_setting(gid, "notification_1h")` (src/CTF.py:322-325). -/
def get_guild_setting_n1 (gid : Nat) (s : BotState) : Bool × BotState :=
  let p := get_guild_config gid s
  (p.1.settings.notification_1h, p.2)

/-- `get_setup_guilds` (src/CTF.py:254-256): at runtime the config keys are
ints, so its `int(gid)` is the identity. -/
def get_setup_guilds (s : BotState) : List Nat :=
  (s.guild_configs.filter (fun p => p.2.setup_complete)).map (fun p => p.1)

/-- `get_guild_notifications` (src/CTF.py:272-281): inserts the four empty
per-kind sets on first access of an (int) guild id. -/
def get_guild_notifications (gid : Nat) (s : BotState) : NotifEntry × BotState :=
  match alGet s.sent_notifications (GKey.ik gid) with
  | some e => (e, s)
  | none =>
    (emptyNotifEntry,
     { s with sent_notifications := alPut s.sent_notifications (GKey.ik gid) emptyNotifEntry })

/-- `has_notification_been_sent` (src/CTF.py:283-286). -/
def has_notification_been_sent (gid : Nat) (cid : String) (k : NotifKind) (s : BotState) :
    Bool × BotState :=
  let p := get_guild_notifications gid s
  (decide (cid ∈ p.1.get k), p.2)

/-- `mark_notification_sent` (src/CTF.py:288-291). -/
def mark_notification_sent (gid : Nat) (cid : String) (k : NotifKind) (s : BotState) :
    BotState :=
  let p := get_guild_notifications gid s
  { p.2 with
    sent_notifications :=
      alPut p.2.sent_notifications (GKey.ik gid) (p.1.put k (insert cid (p.1.get k))) }

/-- Modelled from the spec: `should_send_notification(gid, cid)` is called at
src/CTF.py:539 but its definition is not part of `src/`.  Spec §4.1 step 2
applies the primary window rules only "if the pair has NOT already
joined/skipped-gated suppression", so the predicate holds exactly when the
pair's participation status is still untouched. -/
def should_send_notification (gid : Nat) (cid : String) (s : BotState) : Bool :=
  match alGet s.guild_ctf_status gid with
  | none => true
  | some m => (alGet m cid).isNone

/-- Modelled from the spec: `is_ctf_joined(gid, cid)` is called at
src/CTF.py:541 but its definition is not part of `src/`; per spec §3/§4.2 it
holds when the pair's participation status is `joined`. -/
def is_ctf_joined (gid : Nat) (cid : String) (s : BotState) : Bool :=
  match alGet s.guild_ctf_status gid with
  | none => false
  | some m => decide (alGet m cid = some PStat.joined)

/-! ## The evaluation pass (`check_notification_triggers`, src/CTF.py:525-555) -/

/-- Observable effects of one evaluation pass, in program order: an actual
`channel.send` delivery, and a `mark_notification_sent` record. -/
inductive Action
  | send (chan : Nat) (gid : Nat) (cid : String) (kind : NotifKind)
  | mark (gid : Nat) (cid : String) (kind : NotifKind)
  deriving DecidableEq

/-- `send_ctf_channel_reminder` (src/CTF.py:485-499): look up the per-event
channel binding, then the live channel; deliver and report success. -/
def send_ctf_channel_reminder (env : Env) (gid : Nat) (cid : String) (s : BotState) :
    Bool × List Action × BotState :=
  let p := get_guild_config gid s
  match alGet p.1.ctf_channels cid with
  | none => (false, [], p.2)
  | some ch =>
    if ch ∈ env.liveChannels then
      (true, [Action.send ch gid cid NotifKind.channel_1h], p.2)
    else (false, [], p.2)

/-- `send_guild_notification` (src/CTF.py:557-574): silently skipped without
a configured, live primary channel; otherwise the embed is delivered and
**then** the notification is marked sent. -/
def send_guild_notification (env : Env) (gid : Nat) (cid : String) (k : NotifKind)
    (s : BotState) : List Action × BotState :=
  let p := get_guild_channel_id gid s
  match p.1 with
  | none => ([], p.2)
  | some ch =>
    if ch ∈ env.liveChannels then
      ([Action.send ch gid cid k, Action.mark gid cid k], mark_notification_sent gid cid k p.2)
    else ([], p.2)

/-- The `elif` arm (1h window) of the per-event body (src/CTF.py:552-555);
the setting is only read when the window holds (`and` short-circuits). -/
def checkEvent1h (env : Env) (gid : Nat) (cid : String) (hours : ℚ) (s : BotState) :
    List Action × BotState :=
  if 0 < hours ∧ hours ≤ 3 / 2 then
    let p := get_guild_setting_n1 gid s
    if p.1 then
      let q := has_notification_been_sent gid cid NotifKind.n1 p.2
      if q.1 then ([], q.2)
      else send_guild_notification env gid cid NotifKind.n1 q.2
    else ([], p.2)
  else ([], s)

/-- The primary `if/elif` chain of the per-event body (src/CTF.py:547-555). -/
def checkEventPrimary (env : Env) (gid : Nat) (cid : String) (hours : ℚ) (s : BotState) :
    List Action × BotState :=
  if 23 ≤ hours ∧ hours ≤ 25 then
    let p := get_guild_setting_n24 gid s
    if p.1 then
      let q := has_notification_been_sent gid cid NotifKind.n24 p.2
      if q.1 then ([], q.2)
      else send_guild_notification env gid cid NotifKind.n24 q.2
    else checkEvent1h env gid cid hours p.2
  else checkEvent1h env gid cid hours s

/-- The joined/skipped arm of the per-event body (src/CTF.py:539-545): the
channel reminder is attempted, and marked sent only if delivery succeeded. -/
def checkEventReminder (env : Env) (gid : Nat) (cid : String) (hours : ℚ) (s : BotState) :
    List Action × BotState :=
  if is_ctf_joined gid cid s ∧ 0 < hours ∧ hours ≤ 3 / 2 then
    let q := has_notification_been_sent gid cid NotifKind.channel_1h s
    if q.1 then ([], q.2)
    else
      let r := send_ctf_channel_reminder env gid cid q.2
      if r.1 then
        (r.2.1 ++ [Action.mark gid cid NotifKind.channel_1h],
         mark_notification_sent gid cid NotifKind.channel_1h r.2.2)
      else (r.2.1, r.2.2)
  else ([], s)

/-- `parse_ctf_time_to_timestamp(event.get('start'))`: the source calls the
parser with `None` when the field is missing, and its falsiness guard
returns `None` for it. -/
def startTsOf (ev : CTFEvent) : Option Int :=
  match ev.start with
  | none => none
  | some t => parse_ctf_time_to_timestamp t

/-- Per-(guild, cached event) body of the evaluation loop
(src/CTF.py:532-555).  `if not start_ts: continue` also skips a parsed
timestamp of exactly 0 (Python falsiness). -/
def checkEvent (env : Env) (now : ℚ) (gid : Nat) (cid : String) (ev : CTFEvent)
    (s : BotState) : List Action × BotState :=
  match startTsOf ev with
  | none => ([], s)
  | some ts =>
    if ts = 0 then ([], s)
    else
      let hours : ℚ := ((ts : ℚ) - now) / 3600
      if should_send_notification gid cid s then checkEventPrimary env gid cid hours s
      else checkEventReminder env gid cid hours s

/-- The inner loop over `data_manager.ctf_cache.items()` for one guild. -/
def runEvents (env : Env) (now : ℚ) (gid : Nat) :
    List (String × CTFEvent) → BotState → List Action × BotState
  | [], s => ([], s)
  | (cid, ev) :: rest, s =>
    let p := checkEvent env now gid cid ev s
    let q := runEvents env now gid rest p.2
    (p.1 ++ q.1, q.2)

/-- One guild of the outer loop: skipped when `bot.get_guild` returns None
(src/CTF.py:529-530). -/
def runGuild (env : Env) (now : ℚ) (gid : Nat) (s : BotState) : List Action × BotState :=
  if gid ∈ env.liveGuilds then runEvents env now gid s.ctf_cache s else ([], s)

/-- The outer loop over `get_setup_guilds()`. -/
def runGuilds (env : Env) (now : ℚ) :
    List Nat → BotState → List Action × BotState
  | [], s => ([], s)
  | g :: rest, s =>
    let p := runGuild env now g s
    let q := runGuilds env now rest p.2
    (p.1 ++ q.1, q.2)

/-- `check_notification_triggers` (src/CTF.py:525-555): one evaluation pass
at instant `now` (Unix seconds, possibly fractional). -/
def check_notification_triggers (env : Env) (now : ℚ) (s : BotState) :
    List Action × BotState :=
  runGuilds env now (get_setup_guilds s) s

/-! ## Reset, feed refresh, persistence -/

/-- `slash_reset_notifications` (src/CTF.py:660-665) for guild `gid`: the
handler assigns `data_manager.sent_notifications[str(gid)] = {"24h": [],
"1h": [], "channel_1h": [], "archived": []}` — a **string** dict key bound to
four empty collections (extensionally the empty record). -/
def slash_reset_notifications (gid : Nat) (s : BotState) : BotState :=
  { s with sent_notifications :=
      alPut s.sent_notifications (GKey.sk (pyStr gid)) emptyNotifEntry }

/-- `get_ctf_id` (src/CTF.py:265-269): `f"{title}_{eid}"` with `.get`
defaults `'ctf'` and `'unk'`. -/
def get_ctf_id (e : CTFEvent) : String :=
  (e.title.getD "ctf") ++ "_" ++ (match e.id with | some n => pyStr n | none => "unk")

/-- Outcome of the `requests.get(...)`/`response.json()` pair inside the
`try` of `fetch_and_cache_ctfs`: an exception somewhere (network error,
timeout, JSON decode failure, …), or a status code with a decoded body. -/
inductive FetchOutcome
  | raised
  | response (status : Nat) (body : Option (List CTFEvent))

/-- `fetch_and_cache_ctfs` (src/CTF.py:505-523): on HTTP 200 with decodable
JSON the whole new dict is built and then swapped in as the cache; every
other outcome returns `False` and leaves the cache untouched. -/
def fetch_and_cache_ctfs (r : FetchOutcome) (s : BotState) : Bool × BotState :=
  match r with
  | .raised => (false, s)
  | .response status body =>
    if status = 200 then
      match body with
      | some events =>
        (true, { s with ctf_cache := events.foldl (fun m e => alPut m (get_ctf_id e) e) [] })
      | none => (false, s)
    else (false, s)

/-- `list(v)` on a Python set of event ids, fixing an enumeration order. -/
def setToList (v : Finset String) : List String := v.sort (· ≤ ·)

/-- The serialized form of one guild's notification record:
`{k: list(v) for k, v in data.items()}` (src/CTF.py:87). -/
structure NotifEntryS where
  n24 : List String
  n1 : List String
  channel_1h : List String
  archived : List String
  deriving DecidableEq

/-- Serialize one record (sets to sequences). -/
def saveNotifEntry (e : NotifEntry) : NotifEntryS :=
  ⟨setToList e.n24, setToList e.n1, setToList e.channel_1h, setToList e.archived⟩

/-- `{k: set(v) ...}` on load (src/CTF.py:96). -/
def loadNotifEntry (e : NotifEntryS) : NotifEntry :=
  ⟨e.n24.toFinset, e.n1.toFinset, e.channel_1h.toFinset, e.archived.toFinset⟩

/-- Python `str()` on a dict key that is either an int or already a string. -/
def gkeyStr : GKey → String
  | .ik n => pyStr n
  | .sk t => t

/-- `save_guild_configs` (src/CTF.py:75-78): a fresh dict comprehension with
stringified keys; the JSON layer reproduces the dumped document on load. -/
def save_guild_configs (l : List (Nat × GuildConfig)) : List (String × GuildConfig) :=
  ((l.map (fun p => (pyStr p.1, p.2))).foldl (fun m p => alPut m p.1 p.2) [])

/-- `load_guild_configs` (src/CTF.py:80-84): keys back through `int`. -/
def load_guild_configs (l : List (String × GuildConfig)) : List (Nat × GuildConfig) :=
  ((l.map (fun p => (pyIntNat p.1, p.2))).foldl (fun m p => alPut m p.1 p.2) [])

/-- `save_sent_notifications` (src/CTF.py:86-90). -/
def save_sent_notifications (l : List (GKey × NotifEntry)) : List (String × NotifEntryS) :=
  ((l.map (fun p => (gkeyStr p.1, saveNotifEntry p.2))).foldl (fun m p => alPut m p.1 p.2) [])

/-- `load_sent_notifications` (src/CTF.py:92-97): int keys, sets rebuilt. -/
def load_sent_notifications (l : List (String × NotifEntryS)) : List (GKey × NotifEntry) :=
  ((l.map (fun p => (GKey.ik (pyIntNat p.1), loadNotifEntry p.2))).foldl
    (fun m p => alPut m p.1 p.2) [])

/-- `save_guild_ctf_status` (src/CTF.py:99-102): stringified keys, values
passed through the JSON layer as-is. -/
def save_guild_ctf_status (l : List (Nat × List (String × PStat))) :
    List (String × List (String × PStat)) :=
  ((l.map (fun p => (pyStr p.1, p.2))).foldl (fun m p => alPut m p.1 p.2) [])

/-- `load_guild_ctf_status` (src/CTF.py:104-108). -/
def load_guild_ctf_status (l : List (String × List (String × PStat))) :
    List (Nat × List (String × PStat)) :=
  ((l.map (fun p => (pyIntNat p.1, p.2))).foldl (fun m p => alPut m p.1 p.2) [])

/-- `save_ctf_cache` (src/CTF.py:110-115): the cache dict is dumped as-is
(string keys, JSON-safe events), so the external representation coincides
with the in-memory one. -/
def save_ctf_cache (l : List (String × CTFEvent)) : List (String × CTFEvent) := l

/-- `load_ctf_cache` (src/CTF.py:117-123). -/
def load_ctf_cache (l : List (String × CTFEvent)) : List (String × CTFEvent) := l

/-- A fetch outcome the source treats as a failure: anything but HTTP 200
with a JSON-decodable body. -/
def fetchFailed : FetchOutcome → Bool
  | .raised => true
  | .response status body => !(decide (status = 200) && body.isSome)

/-! ## Pure observations and invariants used by the theorems -/

/-- The membership bit `has_notification_been_sent` reports, as a pure
observation (without the accessor's entry-creating side effect, whose
inserted record is empty and so reports the same bit). -/
def sentAlready (gid : Nat) (cid : String) (k : NotifKind) (s : BotState) : Bool :=
  match alGet s.sent_notifications (GKey.ik gid) with
  | none => false
  | some e => decide (cid ∈ e.get k)

/-- Whether the sent store already holds the (int-keyed) record of a guild. -/
def hasEntry (gid : Nat) (s : BotState) : Bool :=
  (alGet s.sent_notifications (GKey.ik gid)).isSome

/-- How evaluation-pass steps relate a state to a later one: the three
stores the pass never writes are unchanged, sent-records are never deleted,
and sent-sets only grow. -/
structure Ext (s s2 : BotState) : Prop where
  configs_eq : s2.guild_configs = s.guild_configs
  status_eq : s2.guild_ctf_status = s.guild_ctf_status
  cache_eq : s2.ctf_cache = s.ctf_cache
  entry_mono : ∀ g : Nat, hasEntry g s = true → hasEntry g s2 = true
  sent_mono : ∀ (g : Nat) (c : String) (k : NotifKind),
    sentAlready g c k s = true → sentAlready g c k s2 = true

/-- Traces of the evaluation pass are concatenations of
deliver-then-mark blocks for one tuple each. -/
inductive SendMarkBlocks : List Action → Prop
  | nil : SendMarkBlocks []
  | block (ch g : Nat) (c : String) (k : NotifKind) (t : List Action) :
      SendMarkBlocks t → SendMarkBlocks (Action.send ch g c k :: Action.mark g c k :: t)

/-- Claim C2's mark-then-send ordering: in the trace, no delivery of a tuple
ever precedes that tuple's mark. -/
def MarkBeforeSend (tr : List Action) : Prop :=
  ∀ (l1 l2 l3 : List Action) (ch g : Nat) (c : String) (k : NotifKind),
    tr ≠ l1 ++ Action.send ch g c k :: l2 ++ Action.mark g c k :: l3

/-! ## Concrete scenario data shared by witnesses and counterexamples -/

/-- A cached event starting 2024-01-02T00:00:00 UTC (timestamp 1704153600). -/
def exEvent : CTFEvent :=
  { id := some 7, title := some "AAA", start := some "2024-01-02T00:00:00" }

/-- A completed setup with primary channel 10 and default settings. -/
def exConfig : GuildConfig := { setup_complete := true, channel_id := some 10 }

/-- One set-up guild, the event cached, nothing sent, nothing joined. -/
def exState : BotState :=
  { ctf_cache := [("AAA_7", exEvent)], guild_configs := [(1, exConfig)] }

/-- Guild 1 and channel 10 resolve; channel 55 does not. -/
def exEnv : Env := { liveGuilds := [1], liveChannels := [10] }

/-- 2024-01-01T00:00:00 UTC: the cached event is exactly 24 hours away. -/
def exNow : ℚ := 1704067200

/-- `exState` with the 24h notification already recorded sent. -/
def exSentState : BotState :=
  { exState with
    sent_notifications := [(GKey.ik 1, { emptyNotifEntry with n24 := {"AAA_7"} })] }

/-- `exState` with the pair joined and a per-event channel binding to 55. -/
def exJoinedState : BotState :=
  { exState with
    guild_configs := [(1, { exConfig with ctf_channels := [("AAA_7", 55)] })],
    guild_ctf_status := [(1, [("AAA_7", PStat.joined)])] }

/-- 2024-01-01T23:00:00 UTC: the cached event is exactly 1 hour away. -/
def exNow1h : ℚ := 1704150000

/-- Guild 1 live; both the primary channel 10 and the bound channel 55 resolve. -/
def exEnvAll : Env := { liveGuilds := [1], liveChannels := [10, 55] }

/-! ## Pure observations of the per-event body, used to state its behaviour -/

/-- The config stored for a guild (no lazy insertion). -/
def configOf (gid : Nat) (s : BotState) : Option GuildConfig := alGet s.guild_configs gid

/-- The notification record stored for a guild (int key, no insertion). -/
def entryOf (gid : Nat) (s : BotState) : NotifEntry :=
  (alGet s.sent_notifications (GKey.ik gid)).getD emptyNotifEntry

/-- What `get_guild_channel_id` answers for a stored config. -/
def primaryChannelOf (c : GuildConfig) : Option Nat :=
  if c.setup_complete then c.channel_id else none

/-- The state after `get_guild_notifications`'s lazy insertion. -/
def ensureEntry (gid : Nat) (s : BotState) : BotState := (get_guild_notifications gid s).2

/-- Summary of what the per-event body does: nothing at all, only the lazy
record insertion, or a delivery-and-mark of one kind to one channel. -/
inductive EvOutcome
  | none0
  | touch
  | fire (ch : Nat) (k : NotifKind)
  deriving DecidableEq

/-- Outcome of the `elif` (1h) arm, as a pure function of the observations. -/
def elifOutcome (env : Env) (gid : Nat) (cid : String) (hours : ℚ) (c : GuildConfig)
    (s : BotState) : EvOutcome :=
  if 0 < hours ∧ hours ≤ 3 / 2 then
    if c.settings.notification_1h then
      if sentAlready gid cid NotifKind.n1 s then .touch
      else
        match primaryChannelOf c with
        | some ch => if ch ∈ env.liveChannels then .fire ch NotifKind.n1 else .touch
        | none => .touch
    else .none0
  else .none0

/-- Outcome of the whole per-event body, as a pure function of the
observations (the guild's stored config `c` is passed explicitly). -/
def evOutcome (env : Env) (now : ℚ) (gid : Nat) (cid : String) (ev : CTFEvent)
    (c : GuildConfig) (s : BotState) : EvOutcome :=
  match startTsOf ev with
  | none => .none0
  | some ts =>
    if ts = 0 then .none0
    else
      let hours : ℚ := ((ts : ℚ) - now) / 3600
      if should_send_notification gid cid s then
        if 23 ≤ hours ∧ hours ≤ 25 then
          if c.settings.notification_24h then
            if sentAlready gid cid NotifKind.n24 s then .touch
            else
              match primaryChannelOf c with
              | some ch => if ch ∈ env.liveChannels then .fire ch NotifKind.n24 else .touch
              | none => .touch
          else elifOutcome env gid cid hours c s
        else elifOutcome env gid cid hours c s
      else
        if is_ctf_joined gid cid s ∧ 0 < hours ∧ hours ≤ 3 / 2 then
          if sentAlready gid cid NotifKind.channel_1h s then .touch
          else
            match alGet c.ctf_channels cid with
            | some ch => if ch ∈ env.liveChannels then .fire ch NotifKind.channel_1h else .touch
            | none => .touch
        else .none0

/-! ## General lemmas about dict association lists -/

theorem alGet_alPut_self {α β : Type} [DecidableEq α] (m : List (α × β)) (a : α) (b : β) :
    alGet (alPut m a b) a = some b := by
  induction m with
  | nil => simp [alPut, alGet]
  | cons hd t ih =>
    obtain ⟨k, v⟩ := hd
    by_cases h : k = a
    · subst h
      simp [alPut, alGet]
    · simp [alPut, alGet, h, ih]

theorem alGet_alPut_ne {α β : Type} [DecidableEq α] (m : List (α × β)) (a c : α) (b : β)
    (h : a ≠ c) : alGet (alPut m a b) c = alGet m c := by
  induction m with
  | nil => simp [alPut, alGet, h]
  | cons hd t ih =>
    obtain ⟨k, v⟩ := hd
    by_cases hk : k = a
    · subst hk
      simp [alPut, alGet, h]
    · simp only [alPut, if_neg hk]
      by_cases hc : k = c
      · subst hc
        simp [alGet]
      · simp [alGet, hc, ih]

theorem alGet_eq_none_iff {α β : Type} [DecidableEq α] (m : List (α × β)) (a : α) :
    alGet m a = none ↔ a ∉ m.map Prod.fst := by
  induction m with
  | nil => simp [alGet]
  | cons hd t ih =>
    obtain ⟨k, v⟩ := hd
    by_cases h : k = a
    · subst h
      simp [alGet]
    · simp [alGet, h, ih, Ne.symm h]

theorem alPut_of_alGet_none {α β : Type} [DecidableEq α] (m : List (α × β)) (a : α) (b : β)
    (h : alGet m a = none) : alPut m a b = m ++ [(a, b)] := by
  induction m with
  | nil => simp [alPut]
  | cons hd t ih =>
    obtain ⟨k, v⟩ := hd
    by_cases hk : k = a
    · subst hk
      simp [alGet] at h
    · simp only [alGet, if_neg hk] at h
      simp [alPut, hk, ih h]

theorem alGet_append_of_none {α β : Type} [DecidableEq α] (m1 m2 : List (α × β)) (a : α)
    (h : alGet m1 a = none) : alGet (m1 ++ m2) a = alGet m2 a := by
  induction m1 with
  | nil => simp
  | cons hd t ih =>
    obtain ⟨k, v⟩ := hd
    by_cases hk : k = a
    · subst hk
      simp [alGet] at h
    · simp only [alGet, if_neg hk] at h
      simp [alGet, hk, ih h]

theorem foldl_alPut_append {α β : Type} [DecidableEq α] :
    ∀ (l acc : List (α × β)), (∀ k ∈ l.map Prod.fst, alGet acc k = none) →
      (l.map Prod.fst).Nodup →
      l.foldl (fun m p => alPut m p.1 p.2) acc = acc ++ l := by
  intro l
  induction l with
  | nil => intro acc _ _; simp
  | cons hd t ih =>
    intro acc hget hnd
    obtain ⟨k, v⟩ := hd
    simp only [List.foldl_cons]
    have hk : alGet acc k = none := hget k (by simp)
    rw [alPut_of_alGet_none acc k v hk]
    have hknot : k ∉ t.map Prod.fst := by
      simp only [List.map_cons, List.nodup_cons] at hnd
      exact hnd.1
    have hstep : ∀ k2 ∈ t.map Prod.fst, alGet (acc ++ [(k, v)]) k2 = none := by
      intro k2 hk2
      rw [alGet_append_of_none _ _ _ (hget k2 (by simp [hk2]))]
      have : k ≠ k2 := fun he => hknot (he ▸ hk2)
      simp [alGet, this]
    have hndt : (t.map Prod.fst).Nodup := by
      simp only [List.map_cons, List.nodup_cons] at hnd
      exact hnd.2
    rw [ih (acc ++ [(k, v)]) hstep hndt, List.append_assoc]
    rfl

theorem foldl_alPut_nil {α β : Type} [DecidableEq α] (l : List (α × β))
    (h : (l.map Prod.fst).Nodup) :
    l.foldl (fun m p => alPut m p.1 p.2) [] = l := by
  have := foldl_alPut_append l [] (by intro k _; rfl) h
  simpa using this

/-! ## Decimal string round trip (Python `int(str(n)) = n`) -/

theorem decDigitsF_eq_of_lt :
    ∀ (f1 f2 n : Nat), n < f1 → n < f2 → decDigitsF f1 n = decDigitsF f2 n := by
  intro f1
  induction f1 with
  | zero => intro f2 n h1; omega
  | succ f ih =>
    intro f2 n h1 h2
    cases f2 with
    | zero => omega
    | succ g =>
      simp only [decDigitsF]
      by_cases h : n < 10
      · simp [h]
      · have hrec : n / 10 < n := Nat.div_lt_self (by omega) (by norm_num)
        rw [if_neg h, if_neg h, ih g (n / 10) (by omega) (by omega)]

theorem decDigits_lt_ten : ∀ n : Nat, ∀ d ∈ decDigits n, d < 10 := by
  have key : ∀ (fuel n : Nat), n < fuel → ∀ d ∈ decDigitsF fuel n, d < 10 := by
    intro fuel
    induction fuel with
    | zero => intro n h; omega
    | succ f ih =>
      intro n h d hd
      rw [decDigitsF] at hd
      by_cases h10 : n < 10
      · rw [if_pos h10] at hd
        simp only [List.mem_singleton] at hd
        omega
      · rw [if_neg h10] at hd
        rcases List.mem_append.mp hd with h1 | h2
        · have hlt : n / 10 < n := Nat.div_lt_self (by omega) (by norm_num)
          exact ih (n / 10) (by omega) d h1
        · simp only [List.mem_singleton] at h2
          subst h2
          exact Nat.mod_lt _ (by norm_num)
  intro n
  exact key (n + 1) n (by omega)

theorem decValList_decDigits : ∀ n : Nat, decValList (decDigits n) = n := by
  have key : ∀ (fuel n : Nat), n < fuel → decValList (decDigitsF fuel n) = n := by
    intro fuel
    induction fuel with
    | zero => intro n h; omega
    | succ f ih =>
      intro n h
      rw [decDigitsF]
      by_cases h10 : n < 10
      · rw [if_pos h10]
        simp [decValList]
      · rw [if_neg h10]
        rw [decValList, List.foldl_append]
        have hlt : n / 10 < n := Nat.div_lt_self (by omega) (by norm_num)
        have hrec := ih (n / 10) (by omega)
        rw [decValList] at hrec
        rw [hrec]
        show n / 10 * 10 + n % 10 = n
        omega
  intro n
  exact key (n + 1) n (by omega)

theorem pyIntNat_pyStr (n : Nat) : pyIntNat (pyStr n) = n := by
  unfold pyIntNat pyStr
  have hdata : (String.mk ((decDigits n).map (fun d => Char.ofNat (48 + d)))).data =
      (decDigits n).map (fun d => Char.ofNat (48 + d)) := rfl
  rw [hdata, List.map_map]
  have hid : ∀ d ∈ decDigits n,
      ((fun c => c.toNat - 48) ∘ fun d => Char.ofNat (48 + d)) d = d := by
    intro d hd
    have := decDigits_lt_ten n d hd
    interval_cases d <;> rfl
  rw [List.map_congr_left hid]
  simp only [List.map_id']
  exact decValList_decDigits n

theorem pyStr_injective : Function.Injective pyStr := by
  intro a b h
  have ha := pyIntNat_pyStr a
  rw [h, pyIntNat_pyStr] at ha
  exact ha.symm

/-! ## Persistence round trips -/

theorem loadNotifEntry_saveNotifEntry (e : NotifEntry) :
    loadNotifEntry (saveNotifEntry e) = e := by
  obtain ⟨a, b, c, d⟩ := e
  simp [loadNotifEntry, saveNotifEntry, setToList, Finset.sort_toFinset]

theorem load_save_guild_configs (l : List (Nat × GuildConfig))
    (h : (l.map Prod.fst).Nodup) :
    load_guild_configs (save_guild_configs l) = l := by
  unfold save_guild_configs load_guild_configs
  have hkeys : ((l.map (fun p => (pyStr p.1, p.2))).map Prod.fst).Nodup := by
    rw [List.map_map]
    have : (Prod.fst ∘ fun p : Nat × GuildConfig => (pyStr p.1, p.2)) = pyStr ∘ Prod.fst := rfl
    rw [this, ← List.map_map]
    exact h.map pyStr_injective
  rw [foldl_alPut_nil _ hkeys, List.map_map]
  have hback : ∀ p ∈ l,
      ((fun q : String × GuildConfig => (pyIntNat q.1, q.2)) ∘
        fun p : Nat × GuildConfig => (pyStr p.1, p.2)) p = p := by
    intro p _
    simp [Function.comp, pyIntNat_pyStr]
  rw [List.map_congr_left hback]
  simp only [List.map_id']
  exact foldl_alPut_nil _ h

theorem load_save_guild_ctf_status (l : List (Nat × List (String × PStat)))
    (h : (l.map Prod.fst).Nodup) :
    load_guild_ctf_status (save_guild_ctf_status l) = l := by
  unfold save_guild_ctf_status load_guild_ctf_status
  have hkeys : ((l.map (fun p => (pyStr p.1, p.2))).map Prod.fst).Nodup := by
    rw [List.map_map]
    have : (Prod.fst ∘ fun p : Nat × List (String × PStat) => (pyStr p.1, p.2)) =
        pyStr ∘ Prod.fst := rfl
    rw [this, ← List.map_map]
    exact h.map pyStr_injective
  rw [foldl_alPut_nil _ hkeys, List.map_map]
  have hback : ∀ p ∈ l,
      ((fun q : String × List (String × PStat) => (pyIntNat q.1, q.2)) ∘
        fun p : Nat × List (String × PStat) => (pyStr p.1, p.2)) p = p := by
    intro p _
    simp [Function.comp, pyIntNat_pyStr]
  rw [List.map_congr_left hback]
  simp only [List.map_id']
  exact foldl_alPut_nil _ h

theorem load_save_sent_notifications (l : List (GKey × NotifEntry))
    (hik : ∀ k ∈ l.map Prod.fst, ∃ n : Nat, k = GKey.ik n)
    (h : (l.map Prod.fst).Nodup) :
    load_sent_notifications (save_sent_notifications l) = l := by
  unfold save_sent_notifications load_sent_notifications
  have hinj : ∀ x ∈ l.map Prod.fst, ∀ y ∈ l.map Prod.fst, gkeyStr x = gkeyStr y → x = y := by
    intro x hx y hy hxy
    obtain ⟨a, rfl⟩ := hik x hx
    obtain ⟨b, rfl⟩ := hik y hy
    simp only [gkeyStr] at hxy
    rw [pyStr_injective hxy]
  have hkeys : ((l.map (fun p => (gkeyStr p.1, saveNotifEntry p.2))).map Prod.fst).Nodup := by
    rw [List.map_map]
    have : (Prod.fst ∘ fun p : GKey × NotifEntry => (gkeyStr p.1, saveNotifEntry p.2)) =
        gkeyStr ∘ Prod.fst := rfl
    rw [this, ← List.map_map]
    exact List.Nodup.map_on hinj h
  rw [foldl_alPut_nil _ hkeys, List.map_map]
  have hback : ∀ p ∈ l,
      ((fun q : String × NotifEntryS => (GKey.ik (pyIntNat q.1), loadNotifEntry q.2)) ∘
        fun p : GKey × NotifEntry => (gkeyStr p.1, saveNotifEntry p.2)) p = p := by
    intro p hp
    obtain ⟨n, hn⟩ := hik p.1 (List.mem_map_of_mem Prod.fst hp)
    obtain ⟨k, e⟩ := p
    simp only at hn
    subst hn
    simp [Function.comp, gkeyStr, pyIntNat_pyStr, loadNotifEntry_saveNotifEntry]
  rw [List.map_congr_left hback]
  simp only [List.map_id']
  exact foldl_alPut_nil _ h

/-- C9: for each of the four datasets, saving the in-memory structure and
loading it back reproduces it exactly: guild-id keys survive the
str/int coercion round trip, and the per-kind event-id sets survive the
set→list→set round trip.  (The dict-key hypotheses hold of every store the
program builds: Python dict keys are unique, and the runtime sent store is
keyed by int guild ids.) -/
theorem C9_save_load_roundtrip
    (cfgs : List (Nat × GuildConfig)) (sent : List (GKey × NotifEntry))
    (status : List (Nat × List (String × PStat))) (cache : List (String × CTFEvent))
    (hc : (cfgs.map Prod.fst).Nodup)
    (hik : ∀ k ∈ sent.map Prod.fst, ∃ n : Nat, k = GKey.ik n)
    (hs : (sent.map Prod.fst).Nodup)
    (hst : (status.map Prod.fst).Nodup) :
    load_guild_configs (save_guild_configs cfgs) = cfgs ∧
    load_sent_notifications (save_sent_notifications sent) = sent ∧
    load_guild_ctf_status (save_guild_ctf_status status) = status ∧
    load_ctf_cache (save_ctf_cache cache) = cache :=
  ⟨load_save_guild_configs cfgs hc, load_save_sent_notifications sent hik hs,
   load_save_guild_ctf_status status hst, rfl⟩

/-- Witness for C9 at a concrete populated store. -/
theorem C9_save_load_roundtrip_witness :
    load_guild_configs (save_guild_configs [(1, exConfig), (20, {})]) =
        [(1, exConfig), (20, {})] ∧
    load_sent_notifications (save_sent_notifications
        [(GKey.ik 1, { emptyNotifEntry with n24 := {"AAA_7"} })]) =
      [(GKey.ik 1, { emptyNotifEntry with n24 := {"AAA_7"} })] ∧
    load_guild_ctf_status (save_guild_ctf_status [(1, [("AAA_7", PStat.joined)])]) =
      [(1, [("AAA_7", PStat.joined)])] ∧
    load_ctf_cache (save_ctf_cache [("AAA_7", exEvent)]) = [("AAA_7", exEvent)] :=
  C9_save_load_roundtrip [(1, exConfig), (20, {})]
    [(GKey.ik 1, { emptyNotifEntry with n24 := {"AAA_7"} })]
    [(1, [("AAA_7", PStat.joined)])] [("AAA_7", exEvent)]
    (by decide) (by intro k hk; simp at hk; exact ⟨1, hk⟩) (by decide) (by decide)

/-! ## Cache refresh (C7, C8) -/

theorem alGet_foldl_events_none (events : List CTFEvent) (k : String) :
    ∀ acc : List (String × CTFEvent), alGet acc k = none →
      (∀ e ∈ events, get_ctf_id e ≠ k) →
      alGet (events.foldl (fun m e => alPut m (get_ctf_id e) e) acc) k = none := by
  induction events with
  | nil =>
    intro acc h _
    simpa using h
  | cons e t ih =>
    intro acc h hk
    simp only [List.foldl_cons]
    refine ih _ ?_ (fun e2 he2 => hk e2 (by simp [he2]))
    rw [alGet_alPut_ne _ _ _ _ (hk e (by simp))]
    exact h

/-- C7: a successful fetch replaces the event cache wholesale.  The new cache
is a pure function of the fetched events alone — a dict built in full from
the empty dict before being assigned as the cache reference — the other
three stores are untouched, and any key no event of the new fetch maps to is
no longer enumerable via the cache, whatever the old cache held. -/
theorem C7_refresh_replaces_wholesale (events : List CTFEvent) (s : BotState) :
    fetch_and_cache_ctfs (FetchOutcome.response 200 (some events)) s =
      (true, { s with ctf_cache := events.foldl (fun m e => alPut m (get_ctf_id e) e) [] }) ∧
    ∀ k : String, (∀ e ∈ events, get_ctf_id e ≠ k) →
      alGet (fetch_and_cache_ctfs (FetchOutcome.response 200 (some events)) s).2.ctf_cache
        k = none := by
  constructor
  · rfl
  · intro k hk
    exact alGet_foldl_events_none events k [] rfl hk

/-- Witness for C7: the old cache held `"OLD_1"`, which the refreshed cache
no longer enumerates, while sent/participation records survive. -/
theorem C7_refresh_replaces_wholesale_witness :
    (fetch_and_cache_ctfs (FetchOutcome.response 200 (some [exEvent]))
        { exSentState with ctf_cache := [("OLD_1", {})] }).2.ctf_cache =
      [("AAA_7", exEvent)] ∧
    alGet (fetch_and_cache_ctfs (FetchOutcome.response 200 (some [exEvent]))
        { exSentState with ctf_cache := [("OLD_1", {})] }).2.ctf_cache "OLD_1" = none ∧
    (fetch_and_cache_ctfs (FetchOutcome.response 200 (some [exEvent]))
        { exSentState with ctf_cache := [("OLD_1", {})] }).2.sent_notifications =
      exSentState.sent_notifications := by
  refine ⟨by decide, ?_, by decide⟩
  exact (C7_refresh_replaces_wholesale [exEvent]
    { exSentState with ctf_cache := [("OLD_1", {})] }).2 "OLD_1" (by decide)

/-- C8: any failed fetch (exception — network error, timeout, JSON decode
failure — or a non-200 status) returns `False` and leaves the state, in
particular the event cache, untouched; the embedding is a total function, so
nothing is raised. -/
theorem C8_failed_fetch_keeps_cache (r : FetchOutcome) (s : BotState)
    (h : fetchFailed r = true) : fetch_and_cache_ctfs r s = (false, s) := by
  cases r with
  | raised => rfl
  | response status body =>
    unfold fetchFailed at h
    unfold fetch_and_cache_ctfs
    by_cases h2 : status = 200
    · subst h2
      cases body with
      | none => simp
      | some evs => simp at h
    · simp [h2]

/-- Witness for C8 at the three failure shapes. -/
theorem C8_failed_fetch_keeps_cache_witness :
    fetch_and_cache_ctfs FetchOutcome.raised exSentState = (false, exSentState) ∧
    fetch_and_cache_ctfs (FetchOutcome.response 503 (some [exEvent])) exSentState =
      (false, exSentState) ∧
    fetch_and_cache_ctfs (FetchOutcome.response 200 none) exSentState =
      (false, exSentState) :=
  ⟨C8_failed_fetch_keeps_cache FetchOutcome.raised exSentState rfl,
   C8_failed_fetch_keeps_cache (FetchOutcome.response 503 (some [exEvent])) exSentState
     (by decide),
   C8_failed_fetch_keeps_cache (FetchOutcome.response 200 none) exSentState rfl⟩

/-! ## The reset handler (C1) -/

/-- C1 (code-bug exhibit): `slash_reset_notifications` assigns the four empty
collections under the *string* key `str(gid)` (src/CTF.py:664), while every
reader and writer of `sent_notifications` uses the int guild id.  At the
failing input — guild 1 with a 24h notification recorded for event
`"AAA_7"` — the reset leaves the int-keyed record intact: afterwards
`has_notification_been_sent` still answers true, the next evaluation pass
still emits nothing for the pair (so it cannot fire again, contrary to the
claim and the handler's own description "Clear notification history"), the
store ends with two records (the stale int-keyed one and the new
string-keyed one), and participation status is — as claimed — untouched. -/
theorem C1_reset_leaves_int_key_intact :
    (has_notification_been_sent 1 "AAA_7" NotifKind.n24
        (slash_reset_notifications 1 exSentState)).1 = true ∧
    (check_notification_triggers exEnv exNow (slash_reset_notifications 1 exSentState)).1
      = [] ∧
    (slash_reset_notifications 1 exSentState).sent_notifications =
      [(GKey.ik 1, { emptyNotifEntry with n24 := {"AAA_7"} }),
       (GKey.sk "1", emptyNotifEntry)] ∧
    (slash_reset_notifications 1 exSentState).guild_ctf_status =
      exSentState.guild_ctf_status := by
  refine ⟨by decide, ?_, by decide, by decide⟩
  with_unfolding_all decide

/-! ## Timestamp parsing (C10) -/

theorem strptimeYmdHMS_nil : strptimeYmdHMS [] = none := rfl

theorem strptimeYmdHMS_shape (cs : List Char) (d : DT) (h : strptimeYmdHMS cs = some d) :
    d.tzOff = none ∧ d.micro = 0 := by
  unfold strptimeYmdHMS at h
  cases hh : (dtCands cs).head? with
  | none =>
    rw [hh] at h
    cases h
  | some p =>
    rw [hh] at h
    obtain ⟨t, rest⟩ := p
    dsimp only at h
    split at h
    · cases h
      exact ⟨rfl, rfl⟩
    · cases h

theorem tsOfDT_naive (d : DT) (h1 : d.tzOff = none) (h2 : d.micro = 0) :
    tsOfDT d = utcSecondsOf d := by
  unfold tsOfDT utcSecondsOf
  rw [h1, h2]
  simp only [Option.getD, Nat.cast_zero, add_zero, sub_zero]
  exact Int.mul_tdiv_cancel _ (by norm_num)

/-- C10: the start-time parser returns `none` for the empty string; for
every string whose first 19 characters parse under `%Y-%m-%dT%H:%M:%S`
(into a valid datetime) it returns a timestamp, whatever garbage follows;
a string fully matching the naive format is interpreted at UTC (offset 0);
and the 19-character fallback likewise reads its naive prefix as UTC. -/
theorem C10_parse_prefix_fallback_utc :
    parse_ctf_time_to_timestamp "" = none ∧
    (∀ s : String, (strptimeYmdHMS (s.data.take 19)).isSome = true →
      (parse_ctf_time_to_timestamp s).isSome = true) ∧
    (∀ (s : String) (d : DT),
      strptimeYmdHMSz s.data = none → strptimeYmdHMSfz s.data = none →
      strptimeYmdHMS s.data = some d →
      parse_ctf_time_to_timestamp s = some (utcSecondsOf d)) ∧
    (∀ (s : String) (d : DT),
      strptimeYmdHMSz s.data = none → strptimeYmdHMSfz s.data = none →
      strptimeYmdHMS s.data = none → strptimeYmdHMSf s.data = none →
      strptimeYmdHMS (s.data.take 19) = some d →
      parse_ctf_time_to_timestamp s = some (utcSecondsOf d)) := by
  refine ⟨rfl, ?_, ?_, ?_⟩
  · intro s hs
    have hne : s ≠ "" := by
      intro he
      subst he
      rw [show ("" : String).data = [] from rfl] at hs
      rw [show ([] : List Char).take 19 = [] from rfl] at hs
      rw [strptimeYmdHMS_nil] at hs
      cases hs
    unfold parse_ctf_time_to_timestamp
    rw [if_neg hne]
    cases h1 : strptimeYmdHMSz s.data with
    | some d => rfl
    | none =>
    cases h2 : strptimeYmdHMSfz s.data with
    | some d => rfl
    | none =>
    cases h3 : strptimeYmdHMS s.data with
    | some d => rfl
    | none =>
    cases h4 : strptimeYmdHMSf s.data with
    | some d => rfl
    | none =>
    obtain ⟨d, hd⟩ := Option.isSome_iff_exists.mp hs
    rw [hd]
    rfl
  · intro s d h1 h2 h3
    have hne : s ≠ "" := by
      intro he
      subst he
      rw [show ("" : String).data = [] from rfl, strptimeYmdHMS_nil] at h3
      cases h3
    obtain ⟨ha, hb⟩ := strptimeYmdHMS_shape s.data d h3
    simp only [parse_ctf_time_to_timestamp, if_neg hne, h1, h2, h3]
    rw [tsOfDT_naive d ha hb]
  · intro s d h1 h2 h3 h4 h5
    have hne : s ≠ "" := by
      intro he
      subst he
      rw [show ("" : String).data = [] from rfl] at h5
      rw [show ([] : List Char).take 19 = [] from rfl] at h5
      rw [strptimeYmdHMS_nil] at h5
      cases h5
    obtain ⟨ha, hb⟩ := strptimeYmdHMS_shape _ d h5
    simp only [parse_ctf_time_to_timestamp, if_neg hne, h1, h2, h3, h4, h5]
    rw [tsOfDT_naive d ha hb]

/-- Witness for C10: a 19-character valid prefix followed by garbage parses;
the bare naive string parses to its UTC reading, concretely 1704164645. -/
theorem C10_parse_prefix_fallback_utc_witness :
    (parse_ctf_time_to_timestamp "2024-01-02T03:04:05GARBAGE!!").isSome = true ∧
    parse_ctf_time_to_timestamp "2024-01-02T03:04:05" =
      some (utcSecondsOf ⟨2024, 1, 2, 3, 4, 5, 0, none⟩) ∧
    utcSecondsOf ⟨2024, 1, 2, 3, 4, 5, 0, none⟩ = 1704164645 := by
  refine ⟨?_, ?_, by decide⟩
  · exact C10_parse_prefix_fallback_utc.2.1 "2024-01-02T03:04:05GARBAGE!!" (by decide)
  · exact C10_parse_prefix_fallback_utc.2.2.1 "2024-01-02T03:04:05"
      ⟨2024, 1, 2, 3, 4, 5, 0, none⟩ (by decide) (by decide) (by decide)

/-! ## Accessor reduction lemmas (with the guild's config present) -/

theorem get_guild_config_present {gid : Nat} {s : BotState} {c : GuildConfig}
    (h : configOf gid s = some c) : get_guild_config gid s = (c, s) := by
  unfold get_guild_config
  unfold configOf at h
  rw [h]

theorem get_guild_channel_id_present {gid : Nat} {s : BotState} {c : GuildConfig}
    (h : configOf gid s = some c) :
    get_guild_channel_id gid s = (primaryChannelOf c, s) := by
  unfold get_guild_channel_id is_guild_setup_complete primaryChannelOf
  rw [get_guild_config_present h]
  by_cases hs : c.setup_complete
  · simp only [hs, if_true]
    rw [get_guild_config_present h]
  · simp only [hs]
    rfl

theorem get_guild_setting_n24_present {gid : Nat} {s : BotState} {c : GuildConfig}
    (h : configOf gid s = some c) :
    get_guild_setting_n24 gid s = (c.settings.notification_24h, s) := by
  unfold get_guild_setting_n24
  rw [get_guild_config_present h]

theorem get_guild_setting_n1_present {gid : Nat} {s : BotState} {c : GuildConfig}
    (h : configOf gid s = some c) :
    get_guild_setting_n1 gid s = (c.settings.notification_1h, s) := by
  unfold get_guild_setting_n1
  rw [get_guild_config_present h]

theorem emptyNotifEntry_get (k : NotifKind) : emptyNotifEntry.get k = ∅ := by
  cases k <;> rfl

theorem NotifEntry.get_put_self (e : NotifEntry) (k : NotifKind) (v : Finset String) :
    (e.put k v).get k = v := by
  cases k <;> rfl

theorem NotifEntry.get_put_ne (e : NotifEntry) (k k2 : NotifKind) (v : Finset String)
    (h : k2 ≠ k) : (e.put k v).get k2 = e.get k2 := by
  cases k <;> cases k2 <;> first | rfl | exact absurd rfl h

theorem get_guild_notifications_eq (gid : Nat) (s : BotState) :
    get_guild_notifications gid s = (entryOf gid s, ensureEntry gid s) := by
  unfold ensureEntry entryOf
  cases h : alGet s.sent_notifications (GKey.ik gid) with
  | none => simp [get_guild_notifications, h]
  | some e => simp [get_guild_notifications, h]

theorem has_notification_been_sent_eq (gid : Nat) (cid : String) (k : NotifKind)
    (s : BotState) :
    has_notification_been_sent gid cid k s = (sentAlready gid cid k s, ensureEntry gid s) := by
  unfold has_notification_been_sent sentAlready
  rw [get_guild_notifications_eq]
  cases h : alGet s.sent_notifications (GKey.ik gid) with
  | none =>
    simp only [entryOf, h, Option.getD_none, emptyNotifEntry_get]
    simp
  | some e => simp only [entryOf, h, Option.getD_some]

/-! ## State-component facts for the three store-writing primitives -/

theorem ensureEntry_components (gid : Nat) (s : BotState) :
    (ensureEntry gid s).guild_configs = s.guild_configs ∧
    (ensureEntry gid s).guild_ctf_status = s.guild_ctf_status ∧
    (ensureEntry gid s).ctf_cache = s.ctf_cache := by
  unfold ensureEntry get_guild_notifications
  cases h : alGet s.sent_notifications (GKey.ik gid) <;> simp

theorem mark_components (gid : Nat) (cid : String) (k : NotifKind) (s : BotState) :
    (mark_notification_sent gid cid k s).guild_configs = s.guild_configs ∧
    (mark_notification_sent gid cid k s).guild_ctf_status = s.guild_ctf_status ∧
    (mark_notification_sent gid cid k s).ctf_cache = s.ctf_cache := by
  unfold mark_notification_sent
  rw [get_guild_notifications_eq]
  refine ⟨?_, ?_, ?_⟩ <;> simp [ensureEntry_components gid s]

theorem hasEntry_ensure_self (gid : Nat) (s : BotState) :
    hasEntry gid (ensureEntry gid s) = true := by
  unfold hasEntry ensureEntry get_guild_notifications
  cases h : alGet s.sent_notifications (GKey.ik gid) with
  | none => simp [h, alGet_alPut_self]
  | some e => simp [h]

theorem hasEntry_ensure_mono (g gid : Nat) (s : BotState) (h : hasEntry g s = true) :
    hasEntry g (ensureEntry gid s) = true := by
  unfold hasEntry at *
  unfold ensureEntry get_guild_notifications
  cases h2 : alGet s.sent_notifications (GKey.ik gid) with
  | some e => simpa [h2] using h
  | none =>
    by_cases he : GKey.ik gid = GKey.ik g
    · simp [h2, ← he, alGet_alPut_self]
    · simp only [h2]
      rw [alGet_alPut_ne _ _ _ _ he]
      exact h

theorem ensureEntry_of_hasEntry (gid : Nat) (s : BotState) (h : hasEntry gid s = true) :
    ensureEntry gid s = s := by
  unfold hasEntry at h
  unfold ensureEntry get_guild_notifications
  cases h2 : alGet s.sent_notifications (GKey.ik gid) with
  | none => rw [h2] at h; cases h
  | some e => simp [h2]

theorem sentAlready_ensure (g gid : Nat) (c : String) (k : NotifKind) (s : BotState) :
    sentAlready g c k (ensureEntry gid s) = sentAlready g c k s := by
  unfold sentAlready ensureEntry get_guild_notifications
  cases h2 : alGet s.sent_notifications (GKey.ik gid) with
  | some e => simp [h2]
  | none =>
    by_cases he : GKey.ik gid = GKey.ik g
    · have : gid = g := by injection he
      subst this
      simp [h2, alGet_alPut_self, emptyNotifEntry_get]
    · simp only [h2]
      rw [alGet_alPut_ne _ _ _ _ he]

theorem mark_sent_store (gid : Nat) (cid : String) (k : NotifKind) (s : BotState) :
    (mark_notification_sent gid cid k s).sent_notifications =
      alPut (ensureEntry gid s).sent_notifications (GKey.ik gid)
        ((entryOf gid s).put k (insert cid ((entryOf gid s).get k))) := by
  unfold mark_notification_sent
  rw [get_guild_notifications_eq]

theorem entryOf_ensure (gid : Nat) (s : BotState) :
    alGet (ensureEntry gid s).sent_notifications (GKey.ik gid) = some (entryOf gid s) := by
  unfold ensureEntry get_guild_notifications entryOf
  cases h : alGet s.sent_notifications (GKey.ik gid) with
  | none => simp [h, alGet_alPut_self]
  | some e => simp [h]

theorem entryOf_ensure_ne (gid : Nat) (s : BotState) (key : GKey)
    (h : GKey.ik gid ≠ key) :
    alGet (ensureEntry gid s).sent_notifications key = alGet s.sent_notifications key := by
  unfold ensureEntry get_guild_notifications
  cases h2 : alGet s.sent_notifications (GKey.ik gid) with
  | none => simp [h2, alGet_alPut_ne _ _ _ _ h]
  | some e => simp [h2]

theorem sentAlready_eq_entryOf (g : Nat) (c : String) (k : NotifKind) (s : BotState) :
    sentAlready g c k s = decide (c ∈ (entryOf g s).get k) := by
  unfold sentAlready entryOf
  cases h : alGet s.sent_notifications (GKey.ik g) with
  | none => simp [emptyNotifEntry_get]
  | some e => simp

theorem entryOf_mark_self (gid : Nat) (cid : String) (k2 : NotifKind) (s : BotState) :
    entryOf gid (mark_notification_sent gid cid k2 s) =
      (entryOf gid s).put k2 (insert cid ((entryOf gid s).get k2)) := by
  unfold entryOf
  rw [mark_sent_store, alGet_alPut_self, Option.getD_some]
  rfl

theorem entryOf_mark_ne (g gid : Nat) (cid : String) (k2 : NotifKind) (s : BotState)
    (h : gid ≠ g) :
    entryOf g (mark_notification_sent gid cid k2 s) = entryOf g s := by
  unfold entryOf
  rw [mark_sent_store]
  have he : GKey.ik gid ≠ GKey.ik g := fun hh => h (by injection hh)
  rw [alGet_alPut_ne _ _ _ _ he, entryOf_ensure_ne _ _ _ he]

theorem hasEntry_mark_self (gid : Nat) (cid : String) (k : NotifKind) (s : BotState) :
    hasEntry gid (mark_notification_sent gid cid k s) = true := by
  unfold hasEntry
  rw [mark_sent_store, alGet_alPut_self]
  rfl

theorem hasEntry_mark_mono (g gid : Nat) (cid : String) (k : NotifKind) (s : BotState)
    (h : hasEntry g s = true) :
    hasEntry g (mark_notification_sent gid cid k s) = true := by
  unfold hasEntry
  rw [mark_sent_store]
  by_cases he : GKey.ik gid = GKey.ik g
  · rw [← he, alGet_alPut_self]
    rfl
  · rw [alGet_alPut_ne _ _ _ _ he, entryOf_ensure_ne _ _ _ he]
    exact h

theorem sentAlready_mark_self (gid : Nat) (cid : String) (k : NotifKind) (s : BotState) :
    sentAlready gid cid k (mark_notification_sent gid cid k s) = true := by
  rw [sentAlready_eq_entryOf, entryOf_mark_self, NotifEntry.get_put_self]
  simp

theorem sentAlready_mark_other (g gid : Nat) (c cid : String) (k k2 : NotifKind)
    (s : BotState) (h : gid ≠ g ∨ cid ≠ c) :
    sentAlready g c k (mark_notification_sent gid cid k2 s) = sentAlready g c k s := by
  rw [sentAlready_eq_entryOf, sentAlready_eq_entryOf]
  by_cases hg : gid = g
  · subst hg
    have hc : cid ≠ c := by
      rcases h with h | h
      · exact absurd rfl h
      · exact h
    rw [entryOf_mark_self]
    by_cases hk : k = k2
    · subst hk
      rw [NotifEntry.get_put_self]
      simp [Finset.mem_insert, (Ne.symm hc : c ≠ cid)]
    · rw [NotifEntry.get_put_ne _ _ _ _ (fun hh => hk hh)]
  · rw [entryOf_mark_ne _ _ _ _ _ hg]

theorem sentAlready_mark_mono (g gid : Nat) (c cid : String) (k k2 : NotifKind)
    (s : BotState) (h : sentAlready g c k s = true) :
    sentAlready g c k (mark_notification_sent gid cid k2 s) = true := by
  by_cases hg : gid = g
  · subst hg
    by_cases hc : cid = c
    · subst hc
      by_cases hk : k2 = k
      · subst hk
        exact sentAlready_mark_self gid cid k2 s
      · rw [sentAlready_eq_entryOf, entryOf_mark_self,
          NotifEntry.get_put_ne _ _ _ _ (fun hh => hk hh.symm)]
        rw [sentAlready_eq_entryOf] at h
        exact h
    · rw [sentAlready_mark_other _ _ _ _ _ _ _ (Or.inr hc)]
      exact h
  · rw [sentAlready_mark_other _ _ _ _ _ _ _ (Or.inl hg)]
    exact h

theorem should_send_notification_congr (gid : Nat) (cid : String) (s s2 : BotState)
    (h : s2.guild_ctf_status = s.guild_ctf_status) :
    should_send_notification gid cid s2 = should_send_notification gid cid s := by
  unfold should_send_notification
  rw [h]

theorem is_ctf_joined_congr (gid : Nat) (cid : String) (s s2 : BotState)
    (h : s2.guild_ctf_status = s.guild_ctf_status) :
    is_ctf_joined gid cid s2 = is_ctf_joined gid cid s := by
  unfold is_ctf_joined
  rw [h]

theorem is_ctf_joined_not_should_send (gid : Nat) (cid : String) (s : BotState)
    (h : is_ctf_joined gid cid s = true) :
    should_send_notification gid cid s = false := by
  unfold is_ctf_joined at h
  unfold should_send_notification
  cases h2 : alGet s.guild_ctf_status gid with
  | none => rw [h2] at h; cases h
  | some m =>
    rw [h2] at h
    simp only [decide_eq_true_eq] at h
    simp [h]

/-! ## The per-event body, expressed through `evOutcome` -/

theorem configOf_ensure (g gid : Nat) (s : BotState) :
    configOf g (ensureEntry gid s) = configOf g s := by
  unfold configOf
  rw [(ensureEntry_components gid s).1]

theorem send_guild_notification_eq (env : Env) (gid : Nat) (cid : String) (k : NotifKind)
    (s : BotState) (c : GuildConfig) (hc : configOf gid s = some c) :
    send_guild_notification env gid cid k s =
      match primaryChannelOf c with
      | none => ([], s)
      | some ch =>
        if ch ∈ env.liveChannels then
          ([Action.send ch gid cid k, Action.mark gid cid k],
           mark_notification_sent gid cid k s)
        else ([], s) := by
  unfold send_guild_notification
  rw [get_guild_channel_id_present hc]

theorem send_ctf_channel_reminder_eq (env : Env) (gid : Nat) (cid : String)
    (s : BotState) (c : GuildConfig) (hc : configOf gid s = some c) :
    send_ctf_channel_reminder env gid cid s =
      match alGet c.ctf_channels cid with
      | none => (false, [], s)
      | some ch =>
        if ch ∈ env.liveChannels then
          (true, [Action.send ch gid cid NotifKind.channel_1h], s)
        else (false, [], s) := by
  unfold send_ctf_channel_reminder
  rw [get_guild_config_present hc]

theorem checkEvent1h_eq (env : Env) (gid : Nat) (cid : String) (hours : ℚ)
    (s : BotState) (c : GuildConfig) (hc : configOf gid s = some c) :
    checkEvent1h env gid cid hours s =
      match elifOutcome env gid cid hours c s with
      | .none0 => ([], s)
      | .touch => ([], ensureEntry gid s)
      | .fire ch k =>
        ([Action.send ch gid cid k, Action.mark gid cid k],
         mark_notification_sent gid cid k (ensureEntry gid s)) := by
  unfold checkEvent1h elifOutcome
  by_cases hw : 0 < hours ∧ hours ≤ 3 / 2
  · rw [if_pos hw, if_pos hw, get_guild_setting_n1_present hc]
    by_cases hset : c.settings.notification_1h = true
    · simp only [hset, if_true]
      rw [has_notification_been_sent_eq]
      by_cases hsent : sentAlready gid cid NotifKind.n1 s = true
      · simp [hsent]
      · simp only [Bool.not_eq_true] at hsent
        simp only [hsent, Bool.false_eq_true, if_false]
        rw [send_guild_notification_eq env gid cid NotifKind.n1 (ensureEntry gid s) c
          (by rw [configOf_ensure, hc])]
        cases hch : primaryChannelOf c with
        | none => rfl
        | some ch =>
          by_cases hlive : ch ∈ env.liveChannels
          · simp [hlive]
          · simp [hlive]
    · simp only [Bool.not_eq_true] at hset
      simp [hset]
  · rw [if_neg hw, if_neg hw]

theorem checkEventPrimary_eq (env : Env) (gid : Nat) (cid : String) (hours : ℚ)
    (s : BotState) (c : GuildConfig) (hc : configOf gid s = some c) :
    checkEventPrimary env gid cid hours s =
      match (if 23 ≤ hours ∧ hours ≤ 25 then
          (if c.settings.notification_24h then
            (if sentAlready gid cid NotifKind.n24 s then EvOutcome.touch
             else
              match primaryChannelOf c with
              | some ch =>
                if ch ∈ env.liveChannels then EvOutcome.fire ch NotifKind.n24
                else EvOutcome.touch
              | none => EvOutcome.touch)
           else elifOutcome env gid cid hours c s)
        else elifOutcome env gid cid hours c s) with
      | .none0 => ([], s)
      | .touch => ([], ensureEntry gid s)
      | .fire ch k =>
        ([Action.send ch gid cid k, Action.mark gid cid k],
         mark_notification_sent gid cid k (ensureEntry gid s)) := by
  unfold checkEventPrimary
  by_cases hw : 23 ≤ hours ∧ hours ≤ 25
  · rw [if_pos hw, if_pos hw, get_guild_setting_n24_present hc]
    by_cases hset : c.settings.notification_24h = true
    · simp only [hset, if_true]
      rw [has_notification_been_sent_eq]
      by_cases hsent : sentAlready gid cid NotifKind.n24 s = true
      · simp [hsent]
      · simp only [Bool.not_eq_true] at hsent
        simp only [hsent, Bool.false_eq_true, if_false]
        rw [send_guild_notification_eq env gid cid NotifKind.n24 (ensureEntry gid s) c
          (by rw [configOf_ensure, hc])]
        cases hch : primaryChannelOf c with
        | none => rfl
        | some ch =>
          by_cases hlive : ch ∈ env.liveChannels
          · simp [hlive]
          · simp [hlive]
    · simp only [Bool.not_eq_true] at hset
      simp only [hset, Bool.false_eq_true, if_false]
      exact checkEvent1h_eq env gid cid hours s c hc
  · rw [if_neg hw, if_neg hw]
    exact checkEvent1h_eq env gid cid hours s c hc

theorem checkEventReminder_eq (env : Env) (gid : Nat) (cid : String) (hours : ℚ)
    (s : BotState) (c : GuildConfig) (hc : configOf gid s = some c) :
    checkEventReminder env gid cid hours s =
      match (if is_ctf_joined gid cid s ∧ 0 < hours ∧ hours ≤ 3 / 2 then
          (if sentAlready gid cid NotifKind.channel_1h s then EvOutcome.touch
           else
            match alGet c.ctf_channels cid with
            | some ch =>
              if ch ∈ env.liveChannels then EvOutcome.fire ch NotifKind.channel_1h
              else EvOutcome.touch
            | none => EvOutcome.touch)
        else EvOutcome.none0) with
      | .none0 => ([], s)
      | .touch => ([], ensureEntry gid s)
      | .fire ch k =>
        ([Action.send ch gid cid k, Action.mark gid cid k],
         mark_notification_sent gid cid k (ensureEntry gid s)) := by
  unfold checkEventReminder
  by_cases hj : is_ctf_joined gid cid s ∧ 0 < hours ∧ hours ≤ 3 / 2
  · rw [if_pos hj, if_pos hj, has_notification_been_sent_eq]
    by_cases hsent : sentAlready gid cid NotifKind.channel_1h s = true
    · simp [hsent]
    · simp only [Bool.not_eq_true] at hsent
      simp only [hsent, Bool.false_eq_true, if_false]
      rw [send_ctf_channel_reminder_eq env gid cid (ensureEntry gid s) c
        (by rw [configOf_ensure, hc])]
      cases hch : alGet c.ctf_channels cid with
      | none => rfl
      | some ch =>
        by_cases hlive : ch ∈ env.liveChannels
        · simp [hlive]
        · simp [hlive]
  · rw [if_neg hj, if_neg hj]

theorem checkEvent_eq (env : Env) (now : ℚ) (gid : Nat) (cid : String) (ev : CTFEvent)
    (s : BotState) (c : GuildConfig) (hc : configOf gid s = some c) :
    checkEvent env now gid cid ev s =
      match evOutcome env now gid cid ev c s with
      | .none0 => ([], s)
      | .touch => ([], ensureEntry gid s)
      | .fire ch k =>
        ([Action.send ch gid cid k, Action.mark gid cid k],
         mark_notification_sent gid cid k (ensureEntry gid s)) := by
  unfold checkEvent evOutcome
  cases hts : startTsOf ev with
  | none => rfl
  | some ts =>
    by_cases h0 : ts = 0
    · simp [h0]
    · dsimp only
      rw [if_neg h0, if_neg h0]
      by_cases hss : should_send_notification gid cid s = true
      · simp only [hss, if_true]
        exact checkEventPrimary_eq env gid cid _ s c hc
      · simp only [Bool.not_eq_true] at hss
        simp only [hss, Bool.false_eq_true, if_false]
        exact checkEventReminder_eq env gid cid _ s c hc

/-! ## When does the per-event body fire? -/

theorem elifOutcome_fire_iff (env : Env) (gid : Nat) (cid : String) (hours : ℚ)
    (c : GuildConfig) (s : BotState) (ch : Nat) (k : NotifKind) :
    elifOutcome env gid cid hours c s = EvOutcome.fire ch k ↔
      (k = NotifKind.n1 ∧ 0 < hours ∧ hours ≤ 3 / 2 ∧
       c.settings.notification_1h = true ∧
       sentAlready gid cid NotifKind.n1 s = false ∧
       primaryChannelOf c = some ch ∧ ch ∈ env.liveChannels) := by
  constructor
  · intro h
    unfold elifOutcome at h
    by_cases hw : 0 < hours ∧ hours ≤ 3 / 2
    · rw [if_pos hw] at h
      by_cases hset : c.settings.notification_1h = true
      · simp only [hset, if_true] at h
        by_cases hsent : sentAlready gid cid NotifKind.n1 s = true
        · simp only [hsent, if_true] at h
          exact absurd h (by simp)
        · simp only [Bool.not_eq_true] at hsent
          simp only [hsent, Bool.false_eq_true, if_false] at h
          cases hch : primaryChannelOf c with
          | none =>
            rw [hch] at h
            dsimp only at h
            exact absurd h (by simp)
          | some ch2 =>
            rw [hch] at h
            dsimp only at h
            by_cases hlive : ch2 ∈ env.liveChannels
            · rw [if_pos hlive] at h
              injection h with h1 h2
              subst h1
              subst h2
              exact ⟨rfl, hw.1, hw.2, hset, hsent, rfl, hlive⟩
            · rw [if_neg hlive] at h
              exact absurd h (by simp)
      · simp only [Bool.not_eq_true] at hset
        simp only [hset, Bool.false_eq_true, if_false] at h
        exact absurd h (by simp)
    · rw [if_neg hw] at h
      exact absurd h (by simp)
  · rintro ⟨hk, hw1, hw2, hset, hsent, hch, hlive⟩
    subst hk
    unfold elifOutcome
    rw [if_pos ⟨hw1, hw2⟩, hset, if_pos rfl, hsent]
    simp only [Bool.false_eq_true, if_false]
    rw [hch]
    dsimp only
    rw [if_pos hlive]

theorem evOutcome_fire_elim (env : Env) (now : ℚ) (gid : Nat) (cid : String)
    (ev : CTFEvent) (c : GuildConfig) (s : BotState) (ch : Nat) (k : NotifKind)
    (h : evOutcome env now gid cid ev c s = EvOutcome.fire ch k) :
    ∃ ts : Int, startTsOf ev = some ts ∧ ts ≠ 0 ∧
      ((k = NotifKind.n24 ∧ should_send_notification gid cid s = true ∧
        23 ≤ ((ts : ℚ) - now) / 3600 ∧ ((ts : ℚ) - now) / 3600 ≤ 25 ∧
        c.settings.notification_24h = true ∧
        sentAlready gid cid NotifKind.n24 s = false ∧
        primaryChannelOf c = some ch ∧ ch ∈ env.liveChannels) ∨
       (k = NotifKind.n1 ∧ should_send_notification gid cid s = true ∧
        ¬(23 ≤ ((ts : ℚ) - now) / 3600 ∧ ((ts : ℚ) - now) / 3600 ≤ 25 ∧
          c.settings.notification_24h = true) ∧
        0 < ((ts : ℚ) - now) / 3600 ∧ ((ts : ℚ) - now) / 3600 ≤ 3 / 2 ∧
        c.settings.notification_1h = true ∧
        sentAlready gid cid NotifKind.n1 s = false ∧
        primaryChannelOf c = some ch ∧ ch ∈ env.liveChannels) ∨
       (k = NotifKind.channel_1h ∧ should_send_notification gid cid s = false ∧
        is_ctf_joined gid cid s = true ∧
        0 < ((ts : ℚ) - now) / 3600 ∧ ((ts : ℚ) - now) / 3600 ≤ 3 / 2 ∧
        sentAlready gid cid NotifKind.channel_1h s = false ∧
        alGet c.ctf_channels cid = some ch ∧ ch ∈ env.liveChannels)) := by
  unfold evOutcome at h
  cases hts : startTsOf ev with
  | none => rw [hts] at h; exact absurd h (by simp)
  | some ts =>
    rw [hts] at h
    dsimp only at h
    refine ⟨ts, rfl, ?_, ?_⟩
    · intro h0
      rw [if_pos h0] at h
      exact absurd h (by simp)
    · by_cases h0 : ts = 0
      · rw [if_pos h0] at h
        exact absurd h (by simp)
      · rw [if_neg h0] at h
        by_cases hss : should_send_notification gid cid s = true
        · rw [if_pos hss] at h
          by_cases hw : 23 ≤ ((ts : ℚ) - now) / 3600 ∧ ((ts : ℚ) - now) / 3600 ≤ 25
          · rw [if_pos hw] at h
            by_cases hset : c.settings.notification_24h = true
            · simp only [hset, if_true] at h
              by_cases hsent : sentAlready gid cid NotifKind.n24 s = true
              · simp only [hsent, if_true] at h
                exact absurd h (by simp)
              · simp only [Bool.not_eq_true] at hsent
                simp only [hsent, Bool.false_eq_true, if_false] at h
                cases hch : primaryChannelOf c with
                | none =>
                  rw [hch] at h
                  dsimp only at h
                  exact absurd h (by simp)
                | some ch2 =>
                  rw [hch] at h
                  dsimp only at h
                  by_cases hlive : ch2 ∈ env.liveChannels
                  · rw [if_pos hlive] at h
                    injection h with h1 h2
                    subst h1
                    subst h2
                    exact Or.inl ⟨rfl, hss, hw.1, hw.2, hset, hsent, rfl, hlive⟩
                  · rw [if_neg hlive] at h
                    exact absurd h (by simp)
            · simp only [Bool.not_eq_true] at hset
              simp only [hset, Bool.false_eq_true, if_false] at h
              obtain ⟨hk, he1, he2, he3, he4, he5, he6⟩ :=
                (elifOutcome_fire_iff env gid cid _ c s ch k).mp h
              refine Or.inr (Or.inl ⟨hk, hss, ?_, he1, he2, he3, he4, he5, he6⟩)
              intro hcon
              rw [hcon.2.2] at hset
              cases hset
          · rw [if_neg hw] at h
            obtain ⟨hk, he1, he2, he3, he4, he5, he6⟩ :=
              (elifOutcome_fire_iff env gid cid _ c s ch k).mp h
            refine Or.inr (Or.inl ⟨hk, hss, ?_, he1, he2, he3, he4, he5, he6⟩)
            intro hcon
            exact hw ⟨hcon.1, hcon.2.1⟩
        · simp only [Bool.not_eq_true] at hss
          simp only [hss, Bool.false_eq_true, if_false] at h
          by_cases hj : is_ctf_joined gid cid s = true ∧
              0 < ((ts : ℚ) - now) / 3600 ∧ ((ts : ℚ) - now) / 3600 ≤ 3 / 2
          · rw [if_pos hj] at h
            by_cases hsent : sentAlready gid cid NotifKind.channel_1h s = true
            · simp only [hsent, if_true] at h
              exact absurd h (by simp)
            · simp only [Bool.not_eq_true] at hsent
              simp only [hsent, Bool.false_eq_true, if_false] at h
              cases hch : alGet c.ctf_channels cid with
              | none =>
                rw [hch] at h
                dsimp only at h
                exact absurd h (by simp)
              | some ch2 =>
                rw [hch] at h
                dsimp only at h
                by_cases hlive : ch2 ∈ env.liveChannels
                · rw [if_pos hlive] at h
                  injection h with h1 h2
                  subst h1
                  subst h2
                  exact Or.inr (Or.inr ⟨rfl, hss, hj.1, hj.2.1, hj.2.2, hsent, rfl, hlive⟩)
                · rw [if_neg hlive] at h
                  exact absurd h (by simp)
          · rw [if_neg hj] at h
            exact absurd h (by simp)

theorem evOutcome_fire_n24_intro (env : Env) (now : ℚ) (gid : Nat) (cid : String)
    (ev : CTFEvent) (c : GuildConfig) (s : BotState) (ch : Nat) (ts : Int)
    (hts : startTsOf ev = some ts) (h0 : ts ≠ 0)
    (hss : should_send_notification gid cid s = true)
    (hw1 : 23 ≤ ((ts : ℚ) - now) / 3600) (hw2 : ((ts : ℚ) - now) / 3600 ≤ 25)
    (hset : c.settings.notification_24h = true)
    (hsent : sentAlready gid cid NotifKind.n24 s = false)
    (hch : primaryChannelOf c = some ch) (hlive : ch ∈ env.liveChannels) :
    evOutcome env now gid cid ev c s = EvOutcome.fire ch NotifKind.n24 := by
  unfold evOutcome
  rw [hts]
  dsimp only
  rw [if_neg h0, if_pos hss, if_pos ⟨hw1, hw2⟩, hset, if_pos rfl, hsent]
  simp only [Bool.false_eq_true, if_false]
  rw [hch]
  dsimp only
  rw [if_pos hlive]

theorem evOutcome_fire_n1_intro (env : Env) (now : ℚ) (gid : Nat) (cid : String)
    (ev : CTFEvent) (c : GuildConfig) (s : BotState) (ch : Nat) (ts : Int)
    (hts : startTsOf ev = some ts) (h0 : ts ≠ 0)
    (hss : should_send_notification gid cid s = true)
    (hno : ¬(23 ≤ ((ts : ℚ) - now) / 3600 ∧ ((ts : ℚ) - now) / 3600 ≤ 25) ∨
      c.settings.notification_24h = false)
    (hw1 : 0 < ((ts : ℚ) - now) / 3600) (hw2 : ((ts : ℚ) - now) / 3600 ≤ 3 / 2)
    (hset : c.settings.notification_1h = true)
    (hsent : sentAlready gid cid NotifKind.n1 s = false)
    (hch : primaryChannelOf c = some ch) (hlive : ch ∈ env.liveChannels) :
    evOutcome env now gid cid ev c s = EvOutcome.fire ch NotifKind.n1 := by
  have helif : elifOutcome env gid cid (((ts : ℚ) - now) / 3600) c s =
      EvOutcome.fire ch NotifKind.n1 :=
    (elifOutcome_fire_iff env gid cid _ c s ch NotifKind.n1).mpr
      ⟨rfl, hw1, hw2, hset, hsent, hch, hlive⟩
  unfold evOutcome
  rw [hts]
  dsimp only
  rw [if_neg h0, if_pos hss]
  by_cases hw24 : 23 ≤ ((ts : ℚ) - now) / 3600 ∧ ((ts : ℚ) - now) / 3600 ≤ 25
  · rcases hno with hno | hno
    · exact absurd hw24 hno
    · rw [if_pos hw24, hno]
      simp only [Bool.false_eq_true, if_false]
      exact helif
  · rw [if_neg hw24]
    exact helif

theorem evOutcome_fire_ch1h_intro (env : Env) (now : ℚ) (gid : Nat) (cid : String)
    (ev : CTFEvent) (c : GuildConfig) (s : BotState) (ch : Nat) (ts : Int)
    (hts : startTsOf ev = some ts) (h0 : ts ≠ 0)
    (hj : is_ctf_joined gid cid s = true)
    (hw1 : 0 < ((ts : ℚ) - now) / 3600) (hw2 : ((ts : ℚ) - now) / 3600 ≤ 3 / 2)
    (hsent : sentAlready gid cid NotifKind.channel_1h s = false)
    (hch : alGet c.ctf_channels cid = some ch) (hlive : ch ∈ env.liveChannels) :
    evOutcome env now gid cid ev c s = EvOutcome.fire ch NotifKind.channel_1h := by
  have hss := is_ctf_joined_not_should_send gid cid s hj
  unfold evOutcome
  rw [hts]
  dsimp only
  rw [if_neg h0, hss]
  simp only [Bool.false_eq_true, if_false]
  rw [if_pos ⟨hj, hw1, hw2⟩, hsent]
  simp only [Bool.false_eq_true, if_false]
  rw [hch]
  dsimp only
  rw [if_pos hlive]

theorem evOutcome_fire_not_archived (env : Env) (now : ℚ) (gid : Nat) (cid : String)
    (ev : CTFEvent) (c : GuildConfig) (s : BotState) (ch : Nat)
    (h : evOutcome env now gid cid ev c s = EvOutcome.fire ch NotifKind.archived) :
    False := by
  obtain ⟨ts, _, _, hcase⟩ := evOutcome_fire_elim env now gid cid ev c s ch _ h
  rcases hcase with ⟨hk, _⟩ | ⟨hk, _⟩ | ⟨hk, _⟩ <;> cases hk

theorem evOutcome_fire_sent_false (env : Env) (now : ℚ) (gid : Nat) (cid : String)
    (ev : CTFEvent) (c : GuildConfig) (s : BotState) (ch : Nat) (k : NotifKind)
    (h : evOutcome env now gid cid ev c s = EvOutcome.fire ch k) :
    sentAlready gid cid k s = false := by
  obtain ⟨ts, _, _, hcase⟩ := evOutcome_fire_elim env now gid cid ev c s ch k h
  rcases hcase with ⟨hk, _, _, _, _, hs, _, _⟩ | ⟨hk, _, _, _, _, _, hs, _, _⟩ |
    ⟨hk, _, _, _, _, hs, _, _⟩ <;> (subst hk; exact hs)

theorem evOutcome_congr (env : Env) (now : ℚ) (gid : Nat) (cid : String)
    (ev : CTFEvent) (c : GuildConfig) (s s2 : BotState)
    (hstat : s2.guild_ctf_status = s.guild_ctf_status)
    (hsent : ∀ k, sentAlready gid cid k s2 = sentAlready gid cid k s) :
    evOutcome env now gid cid ev c s2 = evOutcome env now gid cid ev c s := by
  unfold evOutcome elifOutcome
  rw [should_send_notification_congr gid cid s s2 hstat,
    is_ctf_joined_congr gid cid s s2 hstat, hsent NotifKind.n24, hsent NotifKind.n1,
    hsent NotifKind.channel_1h]

/-! ## Stability of the outcome under grown sent-sets (idempotence core) -/

theorem elifOutcome_stable (env : Env) (gid : Nat) (cid : String) (hours : ℚ)
    (c : GuildConfig) (s s2 : BotState)
    (hsent : ∀ k, sentAlready gid cid k s = true → sentAlready gid cid k s2 = true) :
    (elifOutcome env gid cid hours c s = EvOutcome.none0 →
      elifOutcome env gid cid hours c s2 = EvOutcome.none0) ∧
    (elifOutcome env gid cid hours c s = EvOutcome.touch →
      elifOutcome env gid cid hours c s2 = EvOutcome.touch) ∧
    (∀ ch k, elifOutcome env gid cid hours c s = EvOutcome.fire ch k →
      sentAlready gid cid k s2 = true →
      elifOutcome env gid cid hours c s2 = EvOutcome.touch) := by
  unfold elifOutcome
  by_cases hw : 0 < hours ∧ hours ≤ 3 / 2
  · simp only [if_pos hw]
    by_cases hset : c.settings.notification_1h = true
    · simp only [hset, if_true]
      by_cases hs1 : sentAlready gid cid NotifKind.n1 s = true
      · have hs1' := hsent _ hs1
        simp only [hs1, hs1', if_true]
        exact ⟨by simp, by simp, by simp⟩
      · simp only [Bool.not_eq_true] at hs1
        simp only [hs1, Bool.false_eq_true, if_false]
        cases hch : primaryChannelOf c with
        | none =>
          dsimp only
          by_cases hs1' : sentAlready gid cid NotifKind.n1 s2 = true
          · simp only [hs1', if_true]
            exact ⟨by simp, by simp, by simp⟩
          · simp only [Bool.not_eq_true] at hs1'
            simp only [hs1', Bool.false_eq_true, if_false]
            exact ⟨by simp, by simp, by simp⟩
        | some ch2 =>
          dsimp only
          by_cases hlive : ch2 ∈ env.liveChannels
          · simp only [if_pos hlive]
            by_cases hs1' : sentAlready gid cid NotifKind.n1 s2 = true
            · simp only [hs1', if_true]
              exact ⟨by simp, by simp, by simp⟩
            · simp only [Bool.not_eq_true] at hs1'
              simp only [hs1', Bool.false_eq_true, if_false]
              refine ⟨by simp, by simp, fun ch k h hk2 => ?_⟩
              injection h with h1 h2
              subst h2
              rw [hk2] at hs1'
              cases hs1'
          · simp only [if_neg hlive]
            by_cases hs1' : sentAlready gid cid NotifKind.n1 s2 = true
            · simp only [hs1', if_true]
              exact ⟨by simp, by simp, by simp⟩
            · simp only [Bool.not_eq_true] at hs1'
              simp only [hs1', Bool.false_eq_true, if_false]
              exact ⟨by simp, by simp, by simp⟩
    · simp only [Bool.not_eq_true] at hset
      simp only [hset, Bool.false_eq_true, if_false]
      exact ⟨by simp, by simp, by simp⟩
  · simp only [if_neg hw]
    exact ⟨by simp, by simp, by simp⟩

theorem evOutcome_stable (env : Env) (now : ℚ) (gid : Nat) (cid : String)
    (ev : CTFEvent) (c : GuildConfig) (s s2 : BotState)
    (hstat : s2.guild_ctf_status = s.guild_ctf_status)
    (hsent : ∀ k, sentAlready gid cid k s = true → sentAlready gid cid k s2 = true) :
    (evOutcome env now gid cid ev c s = EvOutcome.none0 →
      evOutcome env now gid cid ev c s2 = EvOutcome.none0) ∧
    (evOutcome env now gid cid ev c s = EvOutcome.touch →
      evOutcome env now gid cid ev c s2 = EvOutcome.touch) ∧
    (∀ ch k, evOutcome env now gid cid ev c s = EvOutcome.fire ch k →
      sentAlready gid cid k s2 = true →
      evOutcome env now gid cid ev c s2 = EvOutcome.touch) := by
  unfold evOutcome
  rw [should_send_notification_congr gid cid s s2 hstat,
    is_ctf_joined_congr gid cid s s2 hstat]
  cases hts : startTsOf ev with
  | none =>
    exact ⟨by simp, by simp, by simp⟩
  | some ts =>
    dsimp only
    by_cases h0 : ts = 0
    · simp only [if_pos h0]
      exact ⟨by simp, by simp, by simp⟩
    · simp only [if_neg h0]
      by_cases hss : should_send_notification gid cid s = true
      · simp only [hss, if_true]
        by_cases hw : 23 ≤ ((ts : ℚ) - now) / 3600 ∧ ((ts : ℚ) - now) / 3600 ≤ 25
        · simp only [if_pos hw]
          by_cases hset : c.settings.notification_24h = true
          · simp only [hset, if_true]
            by_cases hs24 : sentAlready gid cid NotifKind.n24 s = true
            · have hs24' := hsent _ hs24
              simp only [hs24, hs24', if_true]
              exact ⟨by simp, by simp, by simp⟩
            · simp only [Bool.not_eq_true] at hs24
              simp only [hs24, Bool.false_eq_true, if_false]
              cases hch : primaryChannelOf c with
              | none =>
                dsimp only
                by_cases hs24' : sentAlready gid cid NotifKind.n24 s2 = true
                · simp only [hs24', if_true]
                  exact ⟨by simp, by simp, by simp⟩
                · simp only [Bool.not_eq_true] at hs24'
                  simp only [hs24', Bool.false_eq_true, if_false]
                  exact ⟨by simp, by simp, by simp⟩
              | some ch2 =>
                dsimp only
                by_cases hlive : ch2 ∈ env.liveChannels
                · simp only [if_pos hlive]
                  by_cases hs24' : sentAlready gid cid NotifKind.n24 s2 = true
                  · simp only [hs24', if_true]
                    exact ⟨by simp, by simp, by simp⟩
                  · simp only [Bool.not_eq_true] at hs24'
                    simp only [hs24', Bool.false_eq_true, if_false]
                    refine ⟨by simp, by simp, fun ch k h hk2 => ?_⟩
                    injection h with h1 h2
                    subst h2
                    rw [hk2] at hs24'
                    cases hs24'
                · simp only [if_neg hlive]
                  by_cases hs24' : sentAlready gid cid NotifKind.n24 s2 = true
                  · simp only [hs24', if_true]
                    exact ⟨by simp, by simp, by simp⟩
                  · simp only [Bool.not_eq_true] at hs24'
                    simp only [hs24', Bool.false_eq_true, if_false]
                    exact ⟨by simp, by simp, by simp⟩
          · simp only [Bool.not_eq_true] at hset
            simp only [hset, Bool.false_eq_true, if_false]
            exact elifOutcome_stable env gid cid _ c s s2 hsent
        · simp only [if_neg hw]
          exact elifOutcome_stable env gid cid _ c s s2 hsent
      · simp only [Bool.not_eq_true] at hss
        simp only [hss, Bool.false_eq_true, if_false]
        by_cases hj : is_ctf_joined gid cid s = true ∧
            0 < ((ts : ℚ) - now) / 3600 ∧ ((ts : ℚ) - now) / 3600 ≤ 3 / 2
        · simp only [if_pos hj]
          by_cases hsc : sentAlready gid cid NotifKind.channel_1h s = true
          · have hsc' := hsent _ hsc
            simp only [hsc, hsc', if_true]
            exact ⟨by simp, by simp, by simp⟩
          · simp only [Bool.not_eq_true] at hsc
            simp only [hsc, Bool.false_eq_true, if_false]
            cases hch : alGet c.ctf_channels cid with
            | none =>
              dsimp only
              by_cases hsc' : sentAlready gid cid NotifKind.channel_1h s2 = true
              · simp only [hsc', if_true]
                exact ⟨by simp, by simp, by simp⟩
              · simp only [Bool.not_eq_true] at hsc'
                simp only [hsc', Bool.false_eq_true, if_false]
                exact ⟨by simp, by simp, by simp⟩
            | some ch2 =>
              dsimp only
              by_cases hlive : ch2 ∈ env.liveChannels
              · simp only [if_pos hlive]
                by_cases hsc' : sentAlready gid cid NotifKind.channel_1h s2 = true
                · simp only [hsc', if_true]
                  exact ⟨by simp, by simp, by simp⟩
                · simp only [Bool.not_eq_true] at hsc'
                  simp only [hsc', Bool.false_eq_true, if_false]
                  refine ⟨by simp, by simp, fun ch k h hk2 => ?_⟩
                  injection h with h1 h2
                  subst h2
                  rw [hk2] at hsc'
                  cases hsc'
              · simp only [if_neg hlive]
                by_cases hsc' : sentAlready gid cid NotifKind.channel_1h s2 = true
                · simp only [hsc', if_true]
                  exact ⟨by simp, by simp, by simp⟩
                · simp only [Bool.not_eq_true] at hsc'
                  simp only [hsc', Bool.false_eq_true, if_false]
                  exact ⟨by simp, by simp, by simp⟩
        · simp only [if_neg hj]
          exact ⟨by simp, by simp, by simp⟩

/-! ## Extension along the evaluation pass -/

theorem Ext.refl (s : BotState) : Ext s s :=
  ⟨rfl, rfl, rfl, fun _ h => h, fun _ _ _ h => h⟩

theorem Ext.comp {s1 s2 s3 : BotState} (h1 : Ext s1 s2) (h2 : Ext s2 s3) : Ext s1 s3 :=
  ⟨h2.configs_eq.trans h1.configs_eq, h2.status_eq.trans h1.status_eq,
   h2.cache_eq.trans h1.cache_eq,
   fun g h => h2.entry_mono g (h1.entry_mono g h),
   fun g c k h => h2.sent_mono g c k (h1.sent_mono g c k h)⟩

theorem configOf_congr (g : Nat) (s s2 : BotState)
    (h : s2.guild_configs = s.guild_configs) : configOf g s2 = configOf g s := by
  unfold configOf
  rw [h]

theorem ext_ensureEntry (gid : Nat) (s : BotState) : Ext s (ensureEntry gid s) :=
  ⟨(ensureEntry_components gid s).1, (ensureEntry_components gid s).2.1,
   (ensureEntry_components gid s).2.2,
   fun g h => hasEntry_ensure_mono g gid s h,
   fun g c k h => by rw [sentAlready_ensure]; exact h⟩

theorem ext_mark (gid : Nat) (cid : String) (k : NotifKind) (s : BotState) :
    Ext s (mark_notification_sent gid cid k s) :=
  ⟨(mark_components gid cid k s).1, (mark_components gid cid k s).2.1,
   (mark_components gid cid k s).2.2,
   fun g h => hasEntry_mark_mono g gid cid k s h,
   fun g c k2 h => sentAlready_mark_mono g gid c cid k2 k s h⟩

theorem checkEvent_ext (env : Env) (now : ℚ) (gid : Nat) (cid : String) (ev : CTFEvent)
    (s : BotState) (cfg : GuildConfig) (hc : configOf gid s = some cfg) :
    Ext s (checkEvent env now gid cid ev s).2 := by
  rw [checkEvent_eq env now gid cid ev s cfg hc]
  cases ho : evOutcome env now gid cid ev cfg s with
  | none0 => exact Ext.refl s
  | touch => exact ext_ensureEntry gid s
  | fire ch k => exact (ext_ensureEntry gid s).comp (ext_mark gid cid k (ensureEntry gid s))

theorem runEvents_ext (env : Env) (now : ℚ) (gid : Nat) :
    ∀ (evs : List (String × CTFEvent)) (s : BotState) (cfg : GuildConfig),
      configOf gid s = some cfg → Ext s (runEvents env now gid evs s).2 := by
  intro evs
  induction evs with
  | nil => intro s cfg _; exact Ext.refl s
  | cons hd t ih =>
    intro s cfg hc
    obtain ⟨cid, ev⟩ := hd
    simp only [runEvents]
    have h1 := checkEvent_ext env now gid cid ev s cfg hc
    have hc1 : configOf gid (checkEvent env now gid cid ev s).2 = some cfg := by
      rw [configOf_congr gid s _ h1.configs_eq]
      exact hc
    exact h1.comp (ih _ cfg hc1)

theorem runGuild_ext (env : Env) (now : ℚ) (g : Nat) (s : BotState) (cfg : GuildConfig)
    (hc : configOf g s = some cfg) : Ext s (runGuild env now g s).2 := by
  unfold runGuild
  by_cases hlive : g ∈ env.liveGuilds
  · rw [if_pos hlive]
    exact runEvents_ext env now g s.ctf_cache s cfg hc
  · rw [if_neg hlive]
    exact Ext.refl s

theorem runGuilds_ext (env : Env) (now : ℚ) :
    ∀ (gs : List Nat) (s : BotState),
      (∀ g ∈ gs, (configOf g s).isSome = true) → Ext s (runGuilds env now gs s).2 := by
  intro gs
  induction gs with
  | nil => intro s _; exact Ext.refl s
  | cons g t ih =>
    intro s hconf
    simp only [runGuilds]
    obtain ⟨cfg, hcfg⟩ := Option.isSome_iff_exists.mp (hconf g (by simp))
    have h1 := runGuild_ext env now g s cfg hcfg
    refine h1.comp (ih _ ?_)
    intro g2 hg2
    rw [configOf_congr g2 s _ h1.configs_eq]
    exact hconf g2 (by simp [hg2])

theorem alGet_isSome_of_mem {α β : Type} [DecidableEq α] {l : List (α × β)} {a : α} {b : β}
    (h : (a, b) ∈ l) : (alGet l a).isSome = true := by
  induction l with
  | nil => cases h
  | cons hd t ih =>
    obtain ⟨k, v⟩ := hd
    by_cases hk : k = a
    · subst hk
      simp [alGet]
    · rcases List.mem_cons.mp h with h1 | h1
      · injection h1 with h2 h3
        exact absurd h2.symm hk
      · simp only [alGet, if_neg hk]
        exact ih h1

theorem mem_setup_guilds_config (g : Nat) (s : BotState) (h : g ∈ get_setup_guilds s) :
    (configOf g s).isSome = true := by
  unfold get_setup_guilds at h
  obtain ⟨p, hp, hpg⟩ := List.mem_map.mp h
  obtain ⟨cfg2⟩ := p
  subst hpg
  exact alGet_isSome_of_mem (List.mem_of_mem_filter hp)

theorem check_notification_triggers_ext (env : Env) (now : ℚ) (s : BotState) :
    Ext s (check_notification_triggers env now s).2 := by
  unfold check_notification_triggers
  exact runGuilds_ext env now (get_setup_guilds s) s
    (fun g hg => mem_setup_guilds_config g s hg)

/-! ## Trace membership -/

theorem checkEvent_send_iff (env : Env) (now : ℚ) (gid : Nat) (cid : String)
    (ev : CTFEvent) (s : BotState) (cfg : GuildConfig) (hc : configOf gid s = some cfg)
    (ch g : Nat) (c : String) (k : NotifKind) :
    Action.send ch g c k ∈ (checkEvent env now gid cid ev s).1 ↔
      (gid = g ∧ cid = c ∧ evOutcome env now gid cid ev cfg s = EvOutcome.fire ch k) := by
  rw [checkEvent_eq env now gid cid ev s cfg hc]
  cases ho : evOutcome env now gid cid ev cfg s with
  | none0 => simp
  | touch => simp
  | fire ch2 k2 =>
    dsimp only
    constructor
    · intro hmem
      rcases List.mem_cons.mp hmem with h1 | h1
      · injection h1 with e1 e2 e3 e4
        exact ⟨e2.symm, e3.symm, by rw [e1, e4]⟩
      · rcases List.mem_cons.mp h1 with h2 | h2
        · cases h2
        · cases h2
    · rintro ⟨hg, hcid, hfire⟩
      injection hfire with e1 e2
      subst hg
      subst hcid
      subst e1
      subst e2
      simp

theorem checkEvent_no_send (env : Env) (now : ℚ) (gid : Nat) (cid : String)
    (ev : CTFEvent) (s : BotState) (cfg : GuildConfig) (hc : configOf gid s = some cfg)
    (ch g : Nat) (c : String) (k : NotifKind) (hsent : sentAlready g c k s = true) :
    Action.send ch g c k ∉ (checkEvent env now gid cid ev s).1 := by
  intro hmem
  obtain ⟨hg, hcid, hfire⟩ := (checkEvent_send_iff env now gid cid ev s cfg hc ch g c k).mp hmem
  subst hg
  subst hcid
  have := evOutcome_fire_sent_false env now gid cid ev cfg s ch k hfire
  rw [hsent] at this
  cases this

theorem runEvents_no_send (env : Env) (now : ℚ) (gid : Nat) (ch g : Nat) (c : String)
    (k : NotifKind) :
    ∀ (evs : List (String × CTFEvent)) (s : BotState) (cfg : GuildConfig),
      configOf gid s = some cfg → sentAlready g c k s = true →
      Action.send ch g c k ∉ (runEvents env now gid evs s).1 := by
  intro evs
  induction evs with
  | nil => intro s cfg _ _ h; cases h
  | cons hd t ih =>
    intro s cfg hc hsent hmem
    obtain ⟨cid, ev⟩ := hd
    simp only [runEvents] at hmem
    rcases List.mem_append.mp hmem with h1 | h1
    · exact checkEvent_no_send env now gid cid ev s cfg hc ch g c k hsent h1
    · have hext := checkEvent_ext env now gid cid ev s cfg hc
      exact ih _ cfg (by rw [configOf_congr gid s _ hext.configs_eq]; exact hc)
        (hext.sent_mono g c k hsent) h1

theorem runGuild_no_send (env : Env) (now : ℚ) (g2 : Nat) (s : BotState)
    (cfg : GuildConfig) (hc : configOf g2 s = some cfg) (ch g : Nat) (c : String)
    (k : NotifKind) (hsent : sentAlready g c k s = true) :
    Action.send ch g c k ∉ (runGuild env now g2 s).1 := by
  unfold runGuild
  by_cases hlive : g2 ∈ env.liveGuilds
  · rw [if_pos hlive]
    exact runEvents_no_send env now g2 ch g c k s.ctf_cache s cfg hc hsent
  · rw [if_neg hlive]
    intro h
    cases h

theorem runGuilds_no_send (env : Env) (now : ℚ) (ch g : Nat) (c : String) (k : NotifKind) :
    ∀ (gs : List Nat) (s : BotState),
      (∀ g2 ∈ gs, (configOf g2 s).isSome = true) → sentAlready g c k s = true →
      Action.send ch g c k ∉ (runGuilds env now gs s).1 := by
  intro gs
  induction gs with
  | nil => intro s _ _ h; cases h
  | cons g2 t ih =>
    intro s hconf hsent hmem
    simp only [runGuilds] at hmem
    obtain ⟨cfg, hcfg⟩ := Option.isSome_iff_exists.mp (hconf g2 (by simp))
    rcases List.mem_append.mp hmem with h1 | h1
    · exact runGuild_no_send env now g2 s cfg hcfg ch g c k hsent h1
    · have hext := runGuild_ext env now g2 s cfg hcfg
      refine ih _ ?_ (hext.sent_mono g c k hsent) h1
      intro g3 hg3
      rw [configOf_congr g3 s _ hext.configs_eq]
      exact hconf g3 (by simp [hg3])

/-! ## Every trace is a concatenation of deliver-then-mark blocks -/

theorem SendMarkBlocks.append {a b : List Action} (ha : SendMarkBlocks a)
    (hb : SendMarkBlocks b) : SendMarkBlocks (a ++ b) := by
  induction ha with
  | nil => exact hb
  | block ch g c k t _ ih => exact SendMarkBlocks.block ch g c k _ ih

theorem checkEvent_blocks (env : Env) (now : ℚ) (gid : Nat) (cid : String)
    (ev : CTFEvent) (s : BotState) (cfg : GuildConfig) (hc : configOf gid s = some cfg) :
    SendMarkBlocks (checkEvent env now gid cid ev s).1 := by
  rw [checkEvent_eq env now gid cid ev s cfg hc]
  cases ho : evOutcome env now gid cid ev cfg s with
  | none0 => exact SendMarkBlocks.nil
  | touch => exact SendMarkBlocks.nil
  | fire ch k => exact SendMarkBlocks.block ch gid cid k [] SendMarkBlocks.nil

theorem runEvents_blocks (env : Env) (now : ℚ) (gid : Nat) :
    ∀ (evs : List (String × CTFEvent)) (s : BotState) (cfg : GuildConfig),
      configOf gid s = some cfg → SendMarkBlocks (runEvents env now gid evs s).1 := by
  intro evs
  induction evs with
  | nil => intro s cfg _; exact SendMarkBlocks.nil
  | cons hd t ih =>
    intro s cfg hc
    obtain ⟨cid, ev⟩ := hd
    simp only [runEvents]
    have hext := checkEvent_ext env now gid cid ev s cfg hc
    exact (checkEvent_blocks env now gid cid ev s cfg hc).append
      (ih _ cfg (by rw [configOf_congr gid s _ hext.configs_eq]; exact hc))

theorem runGuilds_blocks (env : Env) (now : ℚ) :
    ∀ (gs : List Nat) (s : BotState),
      (∀ g2 ∈ gs, (configOf g2 s).isSome = true) →
      SendMarkBlocks (runGuilds env now gs s).1 := by
  intro gs
  induction gs with
  | nil => intro s _; exact SendMarkBlocks.nil
  | cons g2 t ih =>
    intro s hconf
    simp only [runGuilds]
    obtain ⟨cfg, hcfg⟩ := Option.isSome_iff_exists.mp (hconf g2 (by simp))
    have hext := runGuild_ext env now g2 s cfg hcfg
    have hb1 : SendMarkBlocks (runGuild env now g2 s).1 := by
      unfold runGuild
      by_cases hlive : g2 ∈ env.liveGuilds
      · rw [if_pos hlive]
        exact runEvents_blocks env now g2 s.ctf_cache s cfg hcfg
      · rw [if_neg hlive]
        exact SendMarkBlocks.nil
    refine hb1.append (ih _ ?_)
    intro g3 hg3
    rw [configOf_congr g3 s _ hext.configs_eq]
    exact hconf g3 (by simp [hg3])

theorem check_notification_triggers_blocks (env : Env) (now : ℚ) (s : BotState) :
    SendMarkBlocks (check_notification_triggers env now s).1 := by
  unfold check_notification_triggers
  exact runGuilds_blocks env now (get_setup_guilds s) s
    (fun g hg => mem_setup_guilds_config g s hg)

theorem SendMarkBlocks.mark_after_send {tr : List Action} (h : SendMarkBlocks tr) :
    ∀ (l1 : List Action) (g : Nat) (c : String) (k : NotifKind) (l2 : List Action),
      tr = l1 ++ Action.mark g c k :: l2 →
      ∃ (ch : Nat) (l0 : List Action), l1 = l0 ++ [Action.send ch g c k] := by
  induction h with
  | nil =>
    intro l1 g c k l2 he
    exact absurd he.symm (List.append_ne_nil_of_right_ne_nil l1 (by simp))
  | block ch g2 c2 k2 t ht ih =>
    intro l1 g c k l2 he
    match l1 with
    | [] =>
      simp only [List.nil_append] at he
      injection he with h1 h2
      cases h1
    | [x] =>
      simp only [List.cons_append, List.nil_append] at he
      injection he with h1 h2
      injection h2 with h3 h4
      injection h3 with e1 e2 e3
      subst h1
      exact ⟨ch, [], by rw [e1, e2, e3]; simp⟩
    | x :: y :: l1r =>
      simp only [List.cons_append] at he
      injection he with h1 h2
      injection h2 with h3 h4
      obtain ⟨ch2, l0, hl0⟩ := ih l1r g c k l2 h4
      subst h1
      subst h3
      subst hl0
      exact ⟨ch2, Action.send ch g2 c2 k2 :: Action.mark g2 c2 k2 :: l0, by simp⟩

/-- C2 (counterexample): at a concrete state where a 24h notification fires,
the pass's trace is the delivery followed by the mark — `channel.send` at
src/CTF.py:572 runs before `mark_notification_sent` at :573 — so the claimed
mark-then-send ordering is violated. -/
theorem C2_mark_then_send_counterexample :
    ¬ MarkBeforeSend (check_notification_triggers exEnv exNow exState).1 := by
  intro h
  exact h [] [] [] 10 1 "AAA_7" NotifKind.n24 (by with_unfolding_all decide)

/-- C2 (amended): the code orders the two effects the other way around —
send-then-mark.  In every trace of the evaluation pass, a tuple is marked
sent immediately AFTER its delivery: any `mark` in the trace is directly
preceded by the matching `send`, and (src/CTF.py:543-544, 572-573) a tuple
is never marked in a pass that did not deliver it. -/
theorem C2_send_then_mark (env : Env) (now : ℚ) (s : BotState) (l1 : List Action)
    (g : Nat) (c : String) (k : NotifKind) (l2 : List Action)
    (h : (check_notification_triggers env now s).1 = l1 ++ Action.mark g c k :: l2) :
    ∃ (ch : Nat) (l0 : List Action), l1 = l0 ++ [Action.send ch g c k] :=
  (check_notification_triggers_blocks env now s).mark_after_send l1 g c k l2 h

/-- Witness for C2 at the concrete firing state. -/
theorem C2_send_then_mark_witness :
    ∃ (ch : Nat) (l0 : List Action),
      [Action.send 10 1 "AAA_7" NotifKind.n24] =
        l0 ++ [Action.send ch 1 "AAA_7" NotifKind.n24] :=
  C2_send_then_mark exEnv exNow exState [Action.send 10 1 "AAA_7" NotifKind.n24] 1 "AAA_7"
    NotifKind.n24 [] (by with_unfolding_all decide)

/-! ## Re-running the pass on its own result is a no-op -/

theorem checkEvent_quiet (env : Env) (now : ℚ) (gid : Nat) (cid : String) (ev : CTFEvent)
    (s s2 : BotState) (cfg : GuildConfig)
    (hc : configOf gid s = some cfg) (hc2 : configOf gid s2 = some cfg)
    (hstat : s2.guild_ctf_status = s.guild_ctf_status)
    (hsent1 : ∀ k, sentAlready gid cid k (checkEvent env now gid cid ev s).2 = true →
      sentAlready gid cid k s2 = true)
    (hent1 : hasEntry gid (checkEvent env now gid cid ev s).2 = true →
      hasEntry gid s2 = true) :
    checkEvent env now gid cid ev s2 = ([], s2) := by
  have hexts := checkEvent_ext env now gid cid ev s cfg hc
  have hsent : ∀ k, sentAlready gid cid k s = true → sentAlready gid cid k s2 = true :=
    fun k hk => hsent1 k (hexts.sent_mono gid cid k hk)
  have hstab := evOutcome_stable env now gid cid ev cfg s s2 hstat hsent
  rw [checkEvent_eq env now gid cid ev s2 cfg hc2]
  cases ho : evOutcome env now gid cid ev cfg s with
  | none0 => rw [hstab.1 ho]
  | touch =>
    rw [hstab.2.1 ho]
    have hentS : hasEntry gid (checkEvent env now gid cid ev s).2 = true := by
      rw [checkEvent_eq env now gid cid ev s cfg hc, ho]
      exact hasEntry_ensure_self gid s
    rw [ensureEntry_of_hasEntry gid s2 (hent1 hentS)]
  | fire ch k =>
    have hsentS : sentAlready gid cid k (checkEvent env now gid cid ev s).2 = true := by
      rw [checkEvent_eq env now gid cid ev s cfg hc, ho]
      exact sentAlready_mark_self gid cid k (ensureEntry gid s)
    rw [hstab.2.2 ch k ho (hsent1 k hsentS)]
    have hentS : hasEntry gid (checkEvent env now gid cid ev s).2 = true := by
      rw [checkEvent_eq env now gid cid ev s cfg hc, ho]
      exact hasEntry_mark_self gid cid k (ensureEntry gid s)
    rw [ensureEntry_of_hasEntry gid s2 (hent1 hentS)]

theorem runEvents_quiet (env : Env) (now : ℚ) (gid : Nat) :
    ∀ (evs : List (String × CTFEvent)) (s s2 : BotState) (cfg : GuildConfig),
      configOf gid s = some cfg → configOf gid s2 = some cfg →
      s2.guild_ctf_status = s.guild_ctf_status →
      (∀ (c : String) (k : NotifKind),
        sentAlready gid c k (runEvents env now gid evs s).2 = true →
        sentAlready gid c k s2 = true) →
      (hasEntry gid (runEvents env now gid evs s).2 = true → hasEntry gid s2 = true) →
      runEvents env now gid evs s2 = ([], s2) := by
  intro evs
  induction evs with
  | nil => intro s s2 cfg _ _ _ _ _; rfl
  | cons hd t ih =>
    intro s s2 cfg hc hc2 hstat hsent hent
    obtain ⟨cid, ev⟩ := hd
    simp only [runEvents] at hsent hent ⊢
    have hext1 := checkEvent_ext env now gid cid ev s cfg hc
    have hc1 : configOf gid (checkEvent env now gid cid ev s).2 = some cfg := by
      rw [configOf_congr gid s _ hext1.configs_eq]
      exact hc
    have hextT := runEvents_ext env now gid t (checkEvent env now gid cid ev s).2 cfg hc1
    have hq : checkEvent env now gid cid ev s2 = ([], s2) :=
      checkEvent_quiet env now gid cid ev s s2 cfg hc hc2 hstat
        (fun k hk => hsent cid k (hextT.sent_mono gid cid k hk))
        (fun hk => hent (hextT.entry_mono gid hk))
    rw [hq]
    have hstat1 : s2.guild_ctf_status = (checkEvent env now gid cid ev s).2.guild_ctf_status := by
      rw [hext1.status_eq]
      exact hstat
    rw [ih (checkEvent env now gid cid ev s).2 s2 cfg hc1 hc2 hstat1 hsent hent]
    rfl

theorem runGuilds_quiet (env : Env) (now : ℚ) :
    ∀ (gs : List Nat) (s s2 : BotState),
      (∀ g ∈ gs, (configOf g s).isSome = true) →
      s2.guild_configs = s.guild_configs →
      s2.guild_ctf_status = s.guild_ctf_status →
      s2.ctf_cache = s.ctf_cache →
      (∀ (g : Nat) (c : String) (k : NotifKind),
        sentAlready g c k (runGuilds env now gs s).2 = true → sentAlready g c k s2 = true) →
      (∀ g : Nat, hasEntry g (runGuilds env now gs s).2 = true → hasEntry g s2 = true) →
      runGuilds env now gs s2 = ([], s2) := by
  intro gs
  induction gs with
  | nil => intro s s2 _ _ _ _ _ _; rfl
  | cons g t ih =>
    intro s s2 hconf hcfgs hstat hcache hsent hent
    obtain ⟨cfg, hcfg⟩ := Option.isSome_iff_exists.mp (hconf g (by simp))
    have hc2 : configOf g s2 = some cfg := by
      rw [configOf_congr g s s2 hcfgs]
      exact hcfg
    simp only [runGuilds] at hsent hent ⊢
    have hext1 := runGuild_ext env now g s cfg hcfg
    have hconfT : ∀ g3 ∈ t, (configOf g3 (runGuild env now g s).2).isSome = true := by
      intro g3 hg3
      rw [configOf_congr g3 s _ hext1.configs_eq]
      exact hconf g3 (by simp [hg3])
    have hextT := runGuilds_ext env now t (runGuild env now g s).2 hconfT
    have hq : runGuild env now g s2 = ([], s2) := by
      unfold runGuild
      by_cases hlive : g ∈ env.liveGuilds
      · rw [if_pos hlive, hcache]
        have hfirst : (runGuild env now g s).2 = (runEvents env now g s.ctf_cache s).2 := by
          unfold runGuild
          rw [if_pos hlive]
        refine runEvents_quiet env now g s.ctf_cache s s2 cfg hcfg hc2 hstat ?_ ?_
        · intro c k hk
          refine hsent g c k (hextT.sent_mono g c k ?_)
          rw [hfirst]
          exact hk
        · intro hk
          refine hent g (hextT.entry_mono g ?_)
          rw [hfirst]
          exact hk
      · rw [if_neg hlive]
    rw [hq]
    have hcfgs1 : s2.guild_configs = (runGuild env now g s).2.guild_configs := by
      rw [hext1.configs_eq]
      exact hcfgs
    have hstat1 : s2.guild_ctf_status = (runGuild env now g s).2.guild_ctf_status := by
      rw [hext1.status_eq]
      exact hstat
    have hcache1 : s2.ctf_cache = (runGuild env now g s).2.ctf_cache := by
      rw [hext1.cache_eq]
      exact hcache
    rw [ih (runGuild env now g s).2 s2 hconfT hcfgs1 hstat1 hcache1 hsent hent]
    rfl

/-- C3: (a) once a kind is recorded sent for a (guild, event) pair, no
evaluation pass ever delivers that kind for the pair again, whatever the
environment; and (b) immediately re-running the pass on the state the
previous pass produced (same instant, same environment) emits nothing and
leaves the state untouched — the pass is idempotent. -/
theorem C3_sent_guard_idempotent (env : Env) (now : ℚ) (s : BotState) (ch g : Nat)
    (c : String) (k : NotifKind) (hsent : sentAlready g c k s = true) :
    Action.send ch g c k ∉ (check_notification_triggers env now s).1 ∧
    check_notification_triggers env now (check_notification_triggers env now s).2 =
      ([], (check_notification_triggers env now s).2) := by
  constructor
  · unfold check_notification_triggers
    exact runGuilds_no_send env now ch g c k (get_setup_guilds s) s
      (fun g2 hg2 => mem_setup_guilds_config g2 s hg2) hsent
  · have hext := check_notification_triggers_ext env now s
    have hgs : get_setup_guilds (check_notification_triggers env now s).2 =
        get_setup_guilds s := by
      unfold get_setup_guilds
      rw [hext.configs_eq]
    show runGuilds env now
      (get_setup_guilds (check_notification_triggers env now s).2)
      (check_notification_triggers env now s).2 =
      ([], (check_notification_triggers env now s).2)
    rw [hgs]
    exact runGuilds_quiet env now (get_setup_guilds s) s
      (check_notification_triggers env now s).2
      (fun g2 hg2 => mem_setup_guilds_config g2 s hg2)
      hext.configs_eq hext.status_eq hext.cache_eq
      (fun g2 c2 k2 hk => hk) (fun g2 hk => hk)

/-- Witness for C3: with the 24h notification recorded sent, the pass
delivers nothing for the pair in the concrete scenario. -/
theorem C3_sent_guard_idempotent_witness :
    Action.send 10 1 "AAA_7" NotifKind.n24 ∉
      (check_notification_triggers exEnv exNow exSentState).1 ∧
    check_notification_triggers exEnv exNow
        (check_notification_triggers exEnv exNow exSentState).2 =
      ([], (check_notification_triggers exEnv exNow exSentState).2) :=
  C3_sent_guard_idempotent exEnv exNow exSentState 10 1 "AAA_7" NotifKind.n24
    (by with_unfolding_all decide)

/-! ## Which deliveries a whole pass makes, per (guild, event, kind) -/

theorem checkEvent_sent_pres (env : Env) (now : ℚ) (gid : Nat) (cid : String)
    (ev : CTFEvent) (s : BotState) (cfg : GuildConfig) (hc : configOf gid s = some cfg)
    (g : Nat) (c : String) (k : NotifKind) (h : gid ≠ g ∨ cid ≠ c) :
    sentAlready g c k (checkEvent env now gid cid ev s).2 = sentAlready g c k s := by
  rw [checkEvent_eq env now gid cid ev s cfg hc]
  cases ho : evOutcome env now gid cid ev cfg s with
  | none0 => rfl
  | touch => exact sentAlready_ensure g gid c k s
  | fire ch k2 =>
    show sentAlready g c k (mark_notification_sent gid cid k2 (ensureEntry gid s)) = _
    rw [sentAlready_mark_other g gid c cid k k2 _ h, sentAlready_ensure]

theorem runEvents_sent_pres (env : Env) (now : ℚ) (gid : Nat) (g : Nat) (c : String)
    (k : NotifKind) :
    ∀ (evs : List (String × CTFEvent)) (s : BotState) (cfg : GuildConfig),
      configOf gid s = some cfg → (gid ≠ g ∨ c ∉ evs.map Prod.fst) →
      sentAlready g c k (runEvents env now gid evs s).2 = sentAlready g c k s := by
  intro evs
  induction evs with
  | nil => intro s cfg _ _; rfl
  | cons hd t ih =>
    intro s cfg hc h
    obtain ⟨cid, ev⟩ := hd
    simp only [runEvents]
    have hext1 := checkEvent_ext env now gid cid ev s cfg hc
    have hc1 : configOf gid (checkEvent env now gid cid ev s).2 = some cfg := by
      rw [configOf_congr gid s _ hext1.configs_eq]
      exact hc
    have hstep : gid ≠ g ∨ cid ≠ c := by
      rcases h with h | h
      · exact Or.inl h
      · exact Or.inr (fun he => h (by simp [he]))
    have htail : gid ≠ g ∨ c ∉ t.map Prod.fst := by
      rcases h with h | h
      · exact Or.inl h
      · exact Or.inr (fun he => h (by simp [he]))
    rw [ih _ cfg hc1 htail, checkEvent_sent_pres env now gid cid ev s cfg hc g c k hstep]

theorem runGuild_sent_pres (env : Env) (now : ℚ) (g2 : Nat) (s : BotState)
    (cfg : GuildConfig) (hc : configOf g2 s = some cfg) (g : Nat) (c : String)
    (k : NotifKind) (h : g2 ≠ g) :
    sentAlready g c k (runGuild env now g2 s).2 = sentAlready g c k s := by
  unfold runGuild
  by_cases hlive : g2 ∈ env.liveGuilds
  · rw [if_pos hlive]
    exact runEvents_sent_pres env now g2 g c k s.ctf_cache s cfg hc (Or.inl h)
  · rw [if_neg hlive]

theorem runEvents_send_iff (env : Env) (now : ℚ) (gid : Nat) (ch g : Nat) (c : String)
    (k : NotifKind) :
    ∀ (evs : List (String × CTFEvent)) (s : BotState) (cfg : GuildConfig),
      configOf gid s = some cfg → (evs.map Prod.fst).Nodup →
      (Action.send ch g c k ∈ (runEvents env now gid evs s).1 ↔
        (gid = g ∧ ∃ ev : CTFEvent, (c, ev) ∈ evs ∧
          evOutcome env now gid c ev cfg s = EvOutcome.fire ch k)) := by
  intro evs
  induction evs with
  | nil =>
    intro s cfg _ _
    simp [runEvents]
  | cons hd t ih =>
    intro s cfg hc hnd
    obtain ⟨cid, ev0⟩ := hd
    simp only [runEvents, List.mem_append]
    have hext1 := checkEvent_ext env now gid cid ev0 s cfg hc
    have hc1 : configOf gid (checkEvent env now gid cid ev0 s).2 = some cfg := by
      rw [configOf_congr gid s _ hext1.configs_eq]
      exact hc
    simp only [List.map_cons, List.nodup_cons] at hnd
    constructor
    · rintro (h1 | h1)
      · obtain ⟨hg, hcid, hfire⟩ :=
          (checkEvent_send_iff env now gid cid ev0 s cfg hc ch g c k).mp h1
        subst hg
        subst hcid
        exact ⟨rfl, ev0, by simp, hfire⟩
      · obtain ⟨hg, ev, hev, hfire⟩ := (ih _ cfg hc1 hnd.2).mp h1
        subst hg
        have hcnec : cid ≠ c :=
          fun he => hnd.1 (he ▸ List.mem_map.mpr ⟨(c, ev), hev, rfl⟩)
        have hcongr : evOutcome env now gid c ev cfg (checkEvent env now gid cid ev0 s).2 =
            evOutcome env now gid c ev cfg s :=
          evOutcome_congr env now gid c ev cfg s _ hext1.status_eq
            (fun k2 => checkEvent_sent_pres env now gid cid ev0 s cfg hc gid c k2
              (Or.inr hcnec))
        exact ⟨rfl, ev, by simp [hev], by rw [← hcongr]; exact hfire⟩
    · rintro ⟨hg, ev, hev, hfire⟩
      subst hg
      rcases List.mem_cons.mp hev with h1 | h1
      · injection h1 with e1 e2
        subst e1
        subst e2
        exact Or.inl ((checkEvent_send_iff env now gid c ev s cfg hc ch gid c k).mpr
          ⟨rfl, rfl, hfire⟩)
      · have hcnec : cid ≠ c :=
          fun he => hnd.1 (he ▸ List.mem_map.mpr ⟨(c, ev), h1, rfl⟩)
        have hcongr : evOutcome env now gid c ev cfg (checkEvent env now gid cid ev0 s).2 =
            evOutcome env now gid c ev cfg s :=
          evOutcome_congr env now gid c ev cfg s _ hext1.status_eq
            (fun k2 => checkEvent_sent_pres env now gid cid ev0 s cfg hc gid c k2
              (Or.inr hcnec))
        exact Or.inr ((ih _ cfg hc1 hnd.2).mpr ⟨rfl, ev, h1, by rw [hcongr]; exact hfire⟩)

theorem runGuild_send_iff (env : Env) (now : ℚ) (g2 : Nat) (s : BotState)
    (cfg : GuildConfig) (hc : configOf g2 s = some cfg)
    (hnd : (s.ctf_cache.map Prod.fst).Nodup) (ch g : Nat) (c : String) (k : NotifKind) :
    Action.send ch g c k ∈ (runGuild env now g2 s).1 ↔
      (g2 ∈ env.liveGuilds ∧ g2 = g ∧ ∃ ev : CTFEvent, (c, ev) ∈ s.ctf_cache ∧
        evOutcome env now g2 c ev cfg s = EvOutcome.fire ch k) := by
  unfold runGuild
  by_cases hlive : g2 ∈ env.liveGuilds
  · rw [if_pos hlive]
    rw [runEvents_send_iff env now g2 ch g c k s.ctf_cache s cfg hc hnd]
    simp [hlive]
  · rw [if_neg hlive]
    simp [hlive]

theorem runGuilds_send_iff (env : Env) (now : ℚ) (ch g : Nat) (c : String) (k : NotifKind) :
    ∀ (gs : List Nat) (s : BotState),
      (∀ g3 ∈ gs, (configOf g3 s).isSome = true) → gs.Nodup →
      (s.ctf_cache.map Prod.fst).Nodup →
      (Action.send ch g c k ∈ (runGuilds env now gs s).1 ↔
        (g ∈ gs ∧ g ∈ env.liveGuilds ∧ ∃ cfg : GuildConfig, configOf g s = some cfg ∧
          ∃ ev : CTFEvent, (c, ev) ∈ s.ctf_cache ∧
            evOutcome env now g c ev cfg s = EvOutcome.fire ch k)) := by
  intro gs
  induction gs with
  | nil =>
    intro s _ _ _
    simp [runGuilds]
  | cons g2 t ih =>
    intro s hconf hnd hndc
    obtain ⟨cfg2, hcfg2⟩ := Option.isSome_iff_exists.mp (hconf g2 (by simp))
    simp only [runGuilds, List.mem_append]
    simp only [List.nodup_cons] at hnd
    have hext1 := runGuild_ext env now g2 s cfg2 hcfg2
    have hconf1 : ∀ g3 ∈ t, (configOf g3 (runGuild env now g2 s).2).isSome = true := by
      intro g3 hg3
      rw [configOf_congr g3 s _ hext1.configs_eq]
      exact hconf g3 (by simp [hg3])
    have hndc1 : ((runGuild env now g2 s).2.ctf_cache.map Prod.fst).Nodup := by
      rw [hext1.cache_eq]
      exact hndc
    constructor
    · rintro (h1 | h1)
      · obtain ⟨hlive, hg, ev, hev, hfire⟩ :=
          (runGuild_send_iff env now g2 s cfg2 hcfg2 hndc ch g c k).mp h1
        subst hg
        exact ⟨by simp, hlive, cfg2, hcfg2, ev, hev, hfire⟩
      · obtain ⟨hgt, hlive, cfg, hcfg, ev, hev, hfire⟩ := (ih _ hconf1 hnd.2 hndc1).mp h1
        have hne : g2 ≠ g := fun he => hnd.1 (he ▸ hgt)
        rw [configOf_congr g s _ hext1.configs_eq] at hcfg
        rw [hext1.cache_eq] at hev
        have hcongr : evOutcome env now g c ev cfg (runGuild env now g2 s).2 =
            evOutcome env now g c ev cfg s :=
          evOutcome_congr env now g c ev cfg s _ hext1.status_eq
            (fun k2 => runGuild_sent_pres env now g2 s cfg2 hcfg2 g c k2 hne)
        rw [hcongr] at hfire
        exact ⟨by simp [hgt], hlive, cfg, hcfg, ev, hev, hfire⟩
    · rintro ⟨hgmem, hlive, cfg, hcfg, ev, hev, hfire⟩
      rcases List.mem_cons.mp hgmem with h1 | h1
      · subst h1
        rw [hcfg] at hcfg2
        injection hcfg2 with hcfgeq
        subst hcfgeq
        exact Or.inl ((runGuild_send_iff env now g s cfg hcfg hndc ch g c k).mpr
          ⟨hlive, rfl, ev, hev, hfire⟩)
      · have hne : g2 ≠ g := fun he => hnd.1 (he ▸ h1)
        have hcongr : evOutcome env now g c ev cfg (runGuild env now g2 s).2 =
            evOutcome env now g c ev cfg s :=
          evOutcome_congr env now g c ev cfg s _ hext1.status_eq
            (fun k2 => runGuild_sent_pres env now g2 s cfg2 hcfg2 g c k2 hne)
        refine Or.inr ((ih _ hconf1 hnd.2 hndc1).mpr ⟨h1, hlive, cfg, ?_, ev, ?_, ?_⟩)
        · rw [configOf_congr g s _ hext1.configs_eq]
          exact hcfg
        · rw [hext1.cache_eq]
          exact hev
        · rw [hcongr]
          exact hfire

theorem alGet_mem {α β : Type} [DecidableEq α] {l : List (α × β)} {a : α} {b : β}
    (h : alGet l a = some b) : (a, b) ∈ l := by
  induction l with
  | nil => cases h
  | cons hd t ih =>
    obtain ⟨k, v⟩ := hd
    by_cases hk : k = a
    · subst hk
      simp only [alGet, if_pos rfl] at h
      injection h with h2
      subst h2
      simp
    · simp only [alGet, if_neg hk] at h
      exact List.mem_cons_of_mem _ (ih h)

theorem alGet_of_mem_nodup {α β : Type} [DecidableEq α] {l : List (α × β)} {a : α} {b : β}
    (hnd : (l.map Prod.fst).Nodup) (h : (a, b) ∈ l) : alGet l a = some b := by
  induction l with
  | nil => cases h
  | cons hd t ih =>
    obtain ⟨k, v⟩ := hd
    simp only [List.map_cons, List.nodup_cons] at hnd
    rcases List.mem_cons.mp h with h1 | h1
    · injection h1 with h2 h3
      subst h2
      subst h3
      simp [alGet]
    · by_cases hk : k = a
      · subst hk
        exact absurd (List.mem_map.mpr ⟨(k, b), h1, rfl⟩) hnd.1
      · simp only [alGet, if_neg hk]
        exact ih hnd.2 h1

theorem mem_setup_guilds_iff (g : Nat) (s : BotState)
    (hnd : (s.guild_configs.map Prod.fst).Nodup) :
    g ∈ get_setup_guilds s ↔
      ∃ cfg : GuildConfig, configOf g s = some cfg ∧ cfg.setup_complete = true := by
  unfold get_setup_guilds configOf
  constructor
  · intro h
    obtain ⟨p, hp, hpg⟩ := List.mem_map.mp h
    obtain ⟨g2, cfg⟩ := p
    subst hpg
    have hp2 := List.mem_filter.mp hp
    exact ⟨cfg, alGet_of_mem_nodup hnd hp2.1, by simpa using hp2.2⟩
  · rintro ⟨cfg, hget, hsetup⟩
    refine List.mem_map.mpr ⟨(g, cfg), List.mem_filter.mpr ⟨alGet_mem hget, hsetup⟩, rfl⟩

theorem check_send_iff (env : Env) (now : ℚ) (s : BotState)
    (hndg : (s.guild_configs.map Prod.fst).Nodup)
    (hndc : (s.ctf_cache.map Prod.fst).Nodup) (ch g : Nat) (c : String) (k : NotifKind) :
    Action.send ch g c k ∈ (check_notification_triggers env now s).1 ↔
      (g ∈ get_setup_guilds s ∧ g ∈ env.liveGuilds ∧
        ∃ cfg : GuildConfig, configOf g s = some cfg ∧
          ∃ ev : CTFEvent, (c, ev) ∈ s.ctf_cache ∧
            evOutcome env now g c ev cfg s = EvOutcome.fire ch k) := by
  unfold check_notification_triggers
  refine runGuilds_send_iff env now ch g c k (get_setup_guilds s) s
    (fun g3 hg3 => mem_setup_guilds_config g3 s hg3) ?_ hndc
  unfold get_setup_guilds
  have hsub : List.Sublist
      ((s.guild_configs.filter (fun p => p.2.setup_complete)).map Prod.fst)
      (s.guild_configs.map Prod.fst) :=
    (List.filter_sublist s.guild_configs).map Prod.fst
  exact hndg.sublist hsub

/-- C4 counterexample: guild 1 is setup-complete with notify-24h enabled, the
cached event parses and is exactly 24 hours away, 24h has not been sent, and
the guild and its primary channel are live — yet the pass emits nothing,
because the pair's participation status is `joined` and the joined/skipped
gate diverts the pair away from the primary 24h/1h chain entirely. -/
theorem C4_joined_gate_counterexample :
    (configOf 1 exJoinedState).map
        (fun cfg => cfg.setup_complete && cfg.settings.notification_24h) = some true ∧
    ("AAA_7", exEvent) ∈ exJoinedState.ctf_cache ∧
    startTsOf exEvent = some 1704153600 ∧
    (23 ≤ ((1704153600 : ℚ) - exNow) / 3600 ∧ ((1704153600 : ℚ) - exNow) / 3600 ≤ 25) ∧
    sentAlready 1 "AAA_7" NotifKind.n24 exJoinedState = false ∧
    1 ∈ exEnv.liveGuilds ∧ 10 ∈ exEnv.liveChannels ∧
    (check_notification_triggers exEnv exNow exJoinedState).1 = [] :=
  ⟨by with_unfolding_all decide, by with_unfolding_all decide,
   by with_unfolding_all rfl, by with_unfolding_all decide,
   by with_unfolding_all decide, by with_unfolding_all decide,
   by with_unfolding_all decide, by with_unfolding_all decide⟩

/-- C4 (amended): for a setup-complete guild with notify-24h enabled, a live
guild object, a live primary channel, and a cached event whose start time
parses to a nonzero timestamp, the pass delivers the 24h notification to the
primary channel iff the pair's participation status is still untouched
(`should_send_notification`), 23 ≤ hours_until_start ≤ 25 (both endpoints
inclusive, exact rational arithmetic), and 24h has not already been sent. -/
theorem C4_24h_window_iff (env : Env) (now : ℚ) (s : BotState)
    (hndg : (s.guild_configs.map Prod.fst).Nodup)
    (hndc : (s.ctf_cache.map Prod.fst).Nodup)
    (g : Nat) (cfg : GuildConfig) (hc : configOf g s = some cfg)
    (hsetup : cfg.setup_complete = true)
    (hset : cfg.settings.notification_24h = true)
    (hglive : g ∈ env.liveGuilds) (ch : Nat)
    (hch : primaryChannelOf cfg = some ch) (hchlive : ch ∈ env.liveChannels)
    (c : String) (ev : CTFEvent) (hev : (c, ev) ∈ s.ctf_cache)
    (ts : Int) (hts : startTsOf ev = some ts) (h0 : ts ≠ 0) :
    Action.send ch g c NotifKind.n24 ∈ (check_notification_triggers env now s).1 ↔
      (should_send_notification g c s = true ∧
        23 ≤ ((ts : ℚ) - now) / 3600 ∧ ((ts : ℚ) - now) / 3600 ≤ 25 ∧
        sentAlready g c NotifKind.n24 s = false) := by
  rw [check_send_iff env now s hndg hndc ch g c NotifKind.n24]
  constructor
  · rintro ⟨hsg, hgl, cfg2, hc2, ev2, hev2, hfire⟩
    rw [hc] at hc2
    injection hc2 with hceq
    subst hceq
    have hev2a := alGet_of_mem_nodup hndc hev2
    have heva := alGet_of_mem_nodup hndc hev
    rw [heva] at hev2a
    injection hev2a with heveq
    subst heveq
    obtain ⟨ts2, hts2, h02, hcase⟩ :=
      evOutcome_fire_elim env now g c ev cfg s ch NotifKind.n24 hfire
    rw [hts] at hts2
    injection hts2 with htseq
    subst htseq
    rcases hcase with ⟨_, hss, hw1, hw2, _, hsent, _, _⟩ | ⟨hk, _⟩ | ⟨hk, _⟩
    · exact ⟨hss, hw1, hw2, hsent⟩
    · cases hk
    · cases hk
  · rintro ⟨hss, hw1, hw2, hsent⟩
    refine ⟨(mem_setup_guilds_iff g s hndg).mpr ⟨cfg, hc, hsetup⟩, hglive, cfg, hc,
      ev, hev, ?_⟩
    exact evOutcome_fire_n24_intro env now g c ev cfg s ch ts hts h0 hss hw1 hw2
      hset hsent hch hchlive

/-- C4 witness: with nothing joined, the characterization holds concretely for
guild 1, channel 10, the cached event exactly 24 hours away. -/
theorem C4_24h_window_iff_witness :
    Action.send 10 1 "AAA_7" NotifKind.n24 ∈
        (check_notification_triggers exEnv exNow exState).1 ↔
      (should_send_notification 1 "AAA_7" exState = true ∧
        23 ≤ ((1704153600 : ℚ) - exNow) / 3600 ∧
        ((1704153600 : ℚ) - exNow) / 3600 ≤ 25 ∧
        sentAlready 1 "AAA_7" NotifKind.n24 exState = false) :=
  C4_24h_window_iff exEnv exNow exState (by with_unfolding_all decide)
    (by with_unfolding_all decide) 1 exConfig (by with_unfolding_all rfl) rfl rfl
    (by decide) 10 rfl (by decide) "AAA_7" exEvent (by with_unfolding_all decide)
    1704153600 (by with_unfolding_all rfl) (by decide)

/-- C5 counterexample: guild 1 is setup-complete with notify-1h enabled, the
cached event is exactly 1 hour away, 1h has not been sent, and guild, primary
channel and bound channel are all live — yet the pass emits only the
channel-1h reminder and no 1h notification, because the pair is `joined` and
the joined/skipped gate skips the primary chain. -/
theorem C5_joined_gate_counterexample :
    (configOf 1 exJoinedState).map
        (fun cfg => cfg.setup_complete && cfg.settings.notification_1h) = some true ∧
    ("AAA_7", exEvent) ∈ exJoinedState.ctf_cache ∧
    startTsOf exEvent = some 1704153600 ∧
    (0 < ((1704153600 : ℚ) - exNow1h) / 3600 ∧
      ((1704153600 : ℚ) - exNow1h) / 3600 ≤ 3 / 2) ∧
    sentAlready 1 "AAA_7" NotifKind.n1 exJoinedState = false ∧
    1 ∈ exEnvAll.liveGuilds ∧ 10 ∈ exEnvAll.liveChannels ∧
    (check_notification_triggers exEnvAll exNow1h exJoinedState).1 =
      [Action.send 55 1 "AAA_7" NotifKind.channel_1h,
       Action.mark 1 "AAA_7" NotifKind.channel_1h] :=
  ⟨by with_unfolding_all decide, by with_unfolding_all decide,
   by with_unfolding_all rfl, by with_unfolding_all decide,
   by with_unfolding_all decide, by with_unfolding_all decide,
   by with_unfolding_all decide, by with_unfolding_all decide⟩

/-- C5 (amended): for a setup-complete guild with notify-1h enabled, a live
guild object, a live primary channel, and a cached event whose start time
parses to a nonzero timestamp, the pass delivers the 1h notification to the
primary channel iff the pair's participation status is still untouched
(`should_send_notification`), 0 < hours_until_start ≤ 1.5 (strict lower
bound, inclusive upper bound), and 1h has not already been sent; the `elif`
shadow of the 24h arm never bites because the two windows are disjoint. -/
theorem C5_1h_window_iff (env : Env) (now : ℚ) (s : BotState)
    (hndg : (s.guild_configs.map Prod.fst).Nodup)
    (hndc : (s.ctf_cache.map Prod.fst).Nodup)
    (g : Nat) (cfg : GuildConfig) (hc : configOf g s = some cfg)
    (hsetup : cfg.setup_complete = true)
    (hset1 : cfg.settings.notification_1h = true)
    (hglive : g ∈ env.liveGuilds) (ch : Nat)
    (hch : primaryChannelOf cfg = some ch) (hchlive : ch ∈ env.liveChannels)
    (c : String) (ev : CTFEvent) (hev : (c, ev) ∈ s.ctf_cache)
    (ts : Int) (hts : startTsOf ev = some ts) (h0 : ts ≠ 0) :
    Action.send ch g c NotifKind.n1 ∈ (check_notification_triggers env now s).1 ↔
      (should_send_notification g c s = true ∧
        0 < ((ts : ℚ) - now) / 3600 ∧ ((ts : ℚ) - now) / 3600 ≤ 3 / 2 ∧
        sentAlready g c NotifKind.n1 s = false) := by
  rw [check_send_iff env now s hndg hndc ch g c NotifKind.n1]
  constructor
  · rintro ⟨hsg, hgl, cfg2, hc2, ev2, hev2, hfire⟩
    rw [hc] at hc2
    injection hc2 with hceq
    subst hceq
    have hev2a := alGet_of_mem_nodup hndc hev2
    have heva := alGet_of_mem_nodup hndc hev
    rw [heva] at hev2a
    injection hev2a with heveq
    subst heveq
    obtain ⟨ts2, hts2, h02, hcase⟩ :=
      evOutcome_fire_elim env now g c ev cfg s ch NotifKind.n1 hfire
    rw [hts] at hts2
    injection hts2 with htseq
    subst htseq
    rcases hcase with ⟨hk, _⟩ | ⟨_, hss, _, hw1, hw2, _, hsent, _, _⟩ | ⟨hk, _⟩
    · cases hk
    · exact ⟨hss, hw1, hw2, hsent⟩
    · cases hk
  · rintro ⟨hss, hw1, hw2, hsent⟩
    refine ⟨(mem_setup_guilds_iff g s hndg).mpr ⟨cfg, hc, hsetup⟩, hglive, cfg, hc,
      ev, hev, ?_⟩
    refine evOutcome_fire_n1_intro env now g c ev cfg s ch ts hts h0 hss
      (Or.inl ?_) hw1 hw2 hset1 hsent hch hchlive
    rintro ⟨h23, _⟩
    linarith

/-- C5 witness: with nothing joined, the characterization holds concretely for
guild 1, channel 10, the cached event exactly 1 hour away. -/
theorem C5_1h_window_iff_witness :
    Action.send 10 1 "AAA_7" NotifKind.n1 ∈
        (check_notification_triggers exEnv exNow1h exState).1 ↔
      (should_send_notification 1 "AAA_7" exState = true ∧
        0 < ((1704153600 : ℚ) - exNow1h) / 3600 ∧
        ((1704153600 : ℚ) - exNow1h) / 3600 ≤ 3 / 2 ∧
        sentAlready 1 "AAA_7" NotifKind.n1 exState = false) :=
  C5_1h_window_iff exEnv exNow1h exState (by with_unfolding_all decide)
    (by with_unfolding_all decide) 1 exConfig (by with_unfolding_all rfl) rfl rfl
    (by decide) 10 rfl (by decide) "AAA_7" exEvent (by with_unfolding_all decide)
    1704153600 (by with_unfolding_all rfl) (by decide)

/-- C6 counterexample: the pair is joined, the event is exactly 1 hour away,
channel-1h has not been sent, and a per-event channel binding (channel 55)
exists — every condition of the claim — yet the pass fires nothing, because
`bot.get_channel(55)` does not resolve: `send_ctf_channel_reminder` returns
False and the reminder is neither delivered nor marked sent. -/
theorem C6_dead_channel_counterexample :
    (configOf 1 exJoinedState).map
        (fun cfg => decide (alGet cfg.ctf_channels "AAA_7" = some 55) &&
          cfg.setup_complete) = some true ∧
    is_ctf_joined 1 "AAA_7" exJoinedState = true ∧
    ("AAA_7", exEvent) ∈ exJoinedState.ctf_cache ∧
    startTsOf exEvent = some 1704153600 ∧
    (0 < ((1704153600 : ℚ) - exNow1h) / 3600 ∧
      ((1704153600 : ℚ) - exNow1h) / 3600 ≤ 3 / 2) ∧
    sentAlready 1 "AAA_7" NotifKind.channel_1h exJoinedState = false ∧
    1 ∈ exEnv.liveGuilds ∧
    (check_notification_triggers exEnv exNow1h exJoinedState).1 = [] :=
  ⟨by with_unfolding_all decide, by with_unfolding_all decide,
   by with_unfolding_all decide, by with_unfolding_all rfl,
   by with_unfolding_all decide, by with_unfolding_all decide,
   by with_unfolding_all decide, by with_unfolding_all decide⟩

/-- C6 (amended): for a setup-complete, live guild whose per-event channel
binding for the pair resolves to a live channel, the pass delivers the
channel-1h reminder to the bound channel iff the pair's participation status
is `joined`, 0 < hours_until_start ≤ 1.5, and channel-1h has not already been
sent; because joined pairs never satisfy `should_send_notification`, the
reminder arm is the only arm they ever take (the primary 24h/1h chain is not
evaluated for them at all). -/
theorem C6_channel_reminder_iff (env : Env) (now : ℚ) (s : BotState)
    (hndg : (s.guild_configs.map Prod.fst).Nodup)
    (hndc : (s.ctf_cache.map Prod.fst).Nodup)
    (g : Nat) (cfg : GuildConfig) (hc : configOf g s = some cfg)
    (hsetup : cfg.setup_complete = true)
    (hglive : g ∈ env.liveGuilds) (ch : Nat) (c : String)
    (hch : alGet cfg.ctf_channels c = some ch) (hchlive : ch ∈ env.liveChannels)
    (ev : CTFEvent) (hev : (c, ev) ∈ s.ctf_cache)
    (ts : Int) (hts : startTsOf ev = some ts) (h0 : ts ≠ 0) :
    Action.send ch g c NotifKind.channel_1h ∈
        (check_notification_triggers env now s).1 ↔
      (is_ctf_joined g c s = true ∧
        0 < ((ts : ℚ) - now) / 3600 ∧ ((ts : ℚ) - now) / 3600 ≤ 3 / 2 ∧
        sentAlready g c NotifKind.channel_1h s = false) := by
  rw [check_send_iff env now s hndg hndc ch g c NotifKind.channel_1h]
  constructor
  · rintro ⟨hsg, hgl, cfg2, hc2, ev2, hev2, hfire⟩
    rw [hc] at hc2
    injection hc2 with hceq
    subst hceq
    have hev2a := alGet_of_mem_nodup hndc hev2
    have heva := alGet_of_mem_nodup hndc hev
    rw [heva] at hev2a
    injection hev2a with heveq
    subst heveq
    obtain ⟨ts2, hts2, h02, hcase⟩ :=
      evOutcome_fire_elim env now g c ev cfg s ch NotifKind.channel_1h hfire
    rw [hts] at hts2
    injection hts2 with htseq
    subst htseq
    rcases hcase with ⟨hk, _⟩ | ⟨hk, _⟩ | ⟨_, _, hj, hw1, hw2, hsent, _, _⟩
    · cases hk
    · cases hk
    · exact ⟨hj, hw1, hw2, hsent⟩
  · rintro ⟨hj, hw1, hw2, hsent⟩
    refine ⟨(mem_setup_guilds_iff g s hndg).mpr ⟨cfg, hc, hsetup⟩, hglive, cfg, hc,
      ev, hev, ?_⟩
    exact evOutcome_fire_ch1h_intro env now g c ev cfg s ch ts hts h0 hj hw1 hw2
      hsent hch hchlive

/-- C6 witness: with both channels live, the characterization holds
concretely for the joined pair, bound channel 55, event 1 hour away. -/
theorem C6_channel_reminder_iff_witness :
    Action.send 55 1 "AAA_7" NotifKind.channel_1h ∈
        (check_notification_triggers exEnvAll exNow1h exJoinedState).1 ↔
      (is_ctf_joined 1 "AAA_7" exJoinedState = true ∧
        0 < ((1704153600 : ℚ) - exNow1h) / 3600 ∧
        ((1704153600 : ℚ) - exNow1h) / 3600 ≤ 3 / 2 ∧
        sentAlready 1 "AAA_7" NotifKind.channel_1h exJoinedState = false) :=
  C6_channel_reminder_iff exEnvAll exNow1h exJoinedState
    (by with_unfolding_all decide) (by with_unfolding_all decide) 1
    { exConfig with ctf_channels := [("AAA_7", 55)] } (by with_unfolding_all rfl)
    rfl (by decide) 55 "AAA_7" rfl (by decide) exEvent
    (by with_unfolding_all decide) 1704153600 (by with_unfolding_all rfl)
    (by decide)

end CTFSentinel
